import Mathlib

/-!
Verification of the Primac S3 analytics engine against its specification.

The Python sources (s3_data_manager.py, mysql_s3_analytics.py,
postgresql_s3_analytics.py, cassandra_s3_analytics.py,
cross_microservice_analytics.py, main.py) are shallowly embedded below:
pandas DataFrames become typed record lists together with an explicit
column-presence list, machine floats become exact rationals (with a small
sum type capturing the IEEE infinities and NaN where a division is not
guarded), raising Python code becomes `Except String`, and `datetime.now()`
becomes an explicit parameter.  Pearson correlation coefficients, whose
value `sxy / sqrt (sxx * syy)` is irrational, are represented by the triple
of centered sums `(sxy, sxx, syy)` from which the real coefficient is the
quotient above; statements about coefficients cast this triple to `ℝ`.
Python `round(x, n)` is embedded as exact round-half-to-even on rationals.
-/

/-- Round-half-to-even on rationals, the rounding mode used by Python's
built-in `round` (and numpy's `round`) on the values appearing here. -/
def roundHalfEven (q : ℚ) : ℤ :=
  if q - (⌊q⌋ : ℚ) < 1/2 then ⌊q⌋
  else if 1/2 < q - (⌊q⌋ : ℚ) then ⌊q⌋ + 1
  else if Even ⌊q⌋ then ⌊q⌋ else ⌊q⌋ + 1

/-- Embedding of Python `round(x, 2)` on exact rationals. -/
def round2 (q : ℚ) : ℚ := (roundHalfEven (q * 100) : ℚ) / 100

def binLabels : List String := ["< 1K", "1K-5K", "5K-10K", "10K-50K", "50K+"]

def cutIncludeLowest (v : ℚ) : Option (Fin 5) :=
  if 0 ≤ v ∧ v ≤ 1000 then some 0
  else if 1000 < v ∧ v ≤ 5000 then some 1
  else if 5000 < v ∧ v ≤ 10000 then some 2
  else if 10000 < v ∧ v ≤ 50000 then some 3
  else if 50000 < v then some 4
  else none

def cutPlain (v : ℚ) : Option (Fin 5) :=
  if 0 < v ∧ v ≤ 1000 then some 0
  else if 1000 < v ∧ v ≤ 5000 then some 1
  else if 5000 < v ∧ v ≤ 10000 then some 2
  else if 10000 < v ∧ v ≤ 50000 then some 3
  else if 50000 < v then some 4
  else none

/-- Count of the input values (nulls included) that a given cut assigns to
bin `i`: the per-label entry of `value_counts()` over the cut column.  A
null input (`v = none`) is never assigned (`none.bind cut = none`), exactly
as pandas excludes NaN from `pd.cut`. -/
def binCount (cut : ℚ → Option (Fin 5)) (vs : List (Option ℚ)) (i : Fin 5) : ℕ :=
  vs.countP (fun v => v.bind cut = some i)

/-- Sum of all five per-bin counts. -/
def binTotal (cut : ℚ → Option (Fin 5)) (vs : List (Option ℚ)) : ℕ :=
  ∑ i : Fin 5, binCount cut vs i

/-- Number of null entries, which pandas excludes from binning. -/
def nullEntryCount (vs : List (Option ℚ)) : ℕ := vs.countP (fun v => v = none)

inductive PFloat where
  | num (q : ℚ)
  | posInf
  | negInf
  | nan
deriving DecidableEq

/-- IEEE/pandas division of two finite values. -/
def pdDiv (a b : ℚ) : PFloat :=
  if b = 0 then (if a = 0 then .nan else if 0 < a then .posInf else .negInf)
  else .num (a / b)

/-- Multiplication by the positive literal 100 (as in `... * 100`). -/
def pdMul100 : PFloat → PFloat
  | .num q => .num (q * 100)
  | .posInf => .posInf
  | .negInf => .negInf
  | .nan => .nan

/-- Pandas `.round(2)` keeps infinities and NaN unchanged. -/
def pdRound2 : PFloat → PFloat
  | .num q => .num (round2 q)
  | x => x

/-! ## Derived ratio metrics (claim C3)

Each definition embeds one ratio expression from the sources, named by its
call site. -/

/-- cross_microservice_analytics.py line 92: penetration_rate in
get_customer_policy_profile's summary, guarded by total_customers > 0. -/
def penetration_rate (customers_with_policies total_customers : ℕ) : ℚ :=
  if 0 < total_customers then
    round2 ((customers_with_policies : ℚ) / total_customers * 100)
  else 0

/-- cassandra_s3_analytics.py line 191: claims_to_payments_ratio in
get_claims_payments_correlation's general_statistics, guarded by
len(payments_df) > 0. -/
def claims_to_payments_metric (total_claims total_payments : ℕ) : ℚ :=
  if 0 < total_payments then round2 ((total_claims : ℚ) / total_payments)
  else 0

/-- cassandra_s3_analytics.py line 145: per-month claims_to_payments_ratio,
guarded by payments_count > 0. -/
def monthly_ctp_metric (claims_count payments_count : ℕ) : ℚ :=
  if 0 < payments_count then round2 ((claims_count : ℚ) / payments_count)
  else 0

/-- cross_microservice_analytics.py line 259: loss_ratio in
get_claims_vs_policies_analysis's financial_analysis, guarded by
total_premiums > 0. -/
def loss_ratio_metric (total_claims_amount total_premiums : ℚ) : ℚ :=
  if 0 < total_premiums then round2 (total_claims_amount / total_premiums * 100)
  else 0

/-- cassandra_s3_analytics.py lines 198-199: the loss_ratio key is added to
general_stats only when total_payments_amount > 0; `none` embeds the
absent key. -/
def loss_ratio_stat (total_claims_amount total_payments_amount : ℚ) : Option ℚ :=
  if 0 < total_payments_amount then
    some (round2 (total_claims_amount / total_payments_amount * 100))
  else none

/-- cross_microservice_analytics.py line 177: sales_penetration in
get_agent_performance_across_systems's summary, guarded by
active_agents_count > 0. -/
def sales_penetration (agents_with_sales active_agents_count : ℕ) : ℚ :=
  if 0 < active_agents_count then
    round2 ((agents_with_sales : ℚ) / active_agents_count * 100)
  else 0

/-- postgresql_s3_analytics.py lines 108-110: premium_efficiency =
premium_mean / base_premium_first, an UNGUARDED pandas Series division
(then .round(2)).  Either operand is NaN when its aggregate was undefined
(mean of an all-null group, `first` of a null cell). -/
def premium_efficiency (premium_mean base_premium_first : Option ℚ) : PFloat :=
  match premium_mean, base_premium_first with
  | some m, some b => pdRound2 (pdDiv m b)
  | _, _ => .nan

/-- postgresql_s3_analytics.py lines 113-115: premium_to_exposure_ratio =
(premium_sum / sum_insured_sum) * 100, an UNGUARDED pandas Series division
(then .round(2)); group sums of skipna aggregation are always finite. -/
def premium_to_exposure_metric (premium_sum sum_insured_sum : ℚ) : PFloat :=
  pdRound2 (pdMul100 (pdDiv premium_sum sum_insured_sum))

/-! ## Insight Rule Engine (claim C8)

Embeds `_generate_claims_payments_insights` (cassandra_s3_analytics.py
lines 217-245).  The numeric rendering inside the message strings uses
`toString` on exact rationals where Python formats a float; thresholds,
rule order and wording are embedded exactly. -/

def high_risk_msg (lr : ℚ) : String :=
  "Alto índice de siniestralidad (" ++ toString lr ++
    "%) - Revisar políticas de suscripción"

def low_risk_msg (lr : ℚ) : String :=
  "Bajo índice de siniestralidad (" ++ toString lr ++
    "%) - Excelente control de riesgos"

def moderate_risk_msg (lr : ℚ) : String :=
  "Índice de siniestralidad moderado (" ++ toString lr ++
    "%) - Dentro de rangos normales"

def high_freq_msg : String :=
  "Alta frecuencia de reclamos - Considerar revisar procesos de satisfacción del cliente"

def low_freq_msg : String :=
  "Baja frecuencia de reclamos - Buena experiencia del cliente o posible sub-reporte"

def strong_corr_msg (kind : String) (cc : ℚ) : String :=
  "Correlación " ++ kind ++ " entre volumen de reclamos y pagos (" ++
    toString cc ++ ")"

/-- The slice of general_stats read by the insight rules.  loss_ratio_pct
is `none` when the loss_ratio key is absent (payments amount was 0);
claims_to_payments is read with `.get(..., 0)`. -/
structure InsightStats where
  loss_ratio_pct : Option ℚ
  claims_to_payments : Option ℚ
deriving DecidableEq

/-- The correlations sub-dict of monthly_comparison; the whole structure is
`none` when the dict is absent or empty (Python truthiness check at
line 239), and count_correlation is read with `.get(..., 0)`. -/
structure InsightCorr where
  count_correlation : Option ℚ
deriving DecidableEq

/-- cassandra_s3_analytics.py lines 217-245, rule for rule. -/
def generate_claims_payments_insights (gs : InsightStats)
    (corr : Option InsightCorr) : List String :=
  (match gs.loss_ratio_pct with
   | some lr =>
     if 80 < lr then [high_risk_msg lr]
     else if lr < 30 then [low_risk_msg lr]
     else [moderate_risk_msg lr]
   | none => []) ++
  (if 1/2 < gs.claims_to_payments.getD 0 then [high_freq_msg]
   else if gs.claims_to_payments.getD 0 < 1/10 then [low_freq_msg]
   else []) ++
  (match corr with
   | some c =>
     if 7/10 < |c.count_correlation.getD 0| then
       [strong_corr_msg
         (if 0 < c.count_correlation.getD 0 then "fuerte" else "fuerte inversa")
         (c.count_correlation.getD 0)]
     else []
   | none => [])

/-! ## Time-Series Comparator building blocks

pandas pipeline being embedded (cassandra_s3_analytics.py lines 108-148):
`groupby('month_year')` sorts group keys ascending; building a DataFrame
out of the four monthly Series aligns them on the sorted union of their
month indexes; `.fillna(0)` zero-fills months missing on one side;
`.corr(...)` computes the Pearson coefficient; `.tail(12)` keeps the last
(most recent) twelve rows. -/

/-- Arithmetic mean of a rational list.  The call sites only consult it for
non-empty lists (correlation is guarded by `len(comparison_df) > 1`). -/
def listMean (xs : List ℚ) : ℚ := xs.sum / xs.length

/-- Sum of products of centered entries, the shared kernel of covariance
and variance.  Pearson r = centeredDot x y / sqrt (centeredDot x x *
centeredDot y y); the 1/(n-1) factors of pandas' cov/std cancel in r. -/
def centeredDot (xs ys : List ℚ) : ℚ :=
  (List.zipWith (fun a b => (a - listMean xs) * (b - listMean ys)) xs ys).sum

/-- Exact representation of a Pearson coefficient: the real coefficient is
sxy / sqrt (sxx * syy), NaN when the denominator is 0 (a constant series).
Python also rounds the coefficient to 3 decimals for display; rounding an
irrational number is not representable here and no claim depends on it. -/
structure PearsonRep where
  sxy : ℚ
  sxx : ℚ
  syy : ℚ
deriving DecidableEq

def pearsonRep (xs ys : List ℚ) : PearsonRep :=
  ⟨centeredDot xs ys, centeredDot xs xs, centeredDot ys ys⟩

/-- Insert a month key into an ascending duplicate-free index. -/
def insertPeriod (x : ℤ) : List ℤ → List ℤ
  | [] => [x]
  | y :: ys =>
    if x < y then x :: y :: ys
    else if x = y then y :: ys
    else y :: insertPeriod x ys

/-- The sorted union of month keys: pandas' sorted groupby index /
DataFrame index alignment. -/
def sortedUnion (ps : List ℤ) : List ℤ := ps.foldr insertPeriod []

/-- value_counts() of a column (nulls already removed by the caller): one
(value, count) entry per distinct value.  pandas orders the entries by
descending count; every consumer here treats the result as a mapping
except idxmax / head(n), which are modelled directly below, so the
embedding keeps first-appearance order. -/
def value_counts {α : Type} [DecidableEq α] (vs : List α) : List (α × ℕ) :=
  vs.dedup.map (fun v => (v, vs.count v))

/-- Stable descending sort by count, for consumers that need pandas'
display order (head(n) of value_counts). -/
def insertCountDesc {α : Type} (e : α × ℕ) : List (α × ℕ) → List (α × ℕ)
  | [] => [e]
  | y :: ys => if y.2 < e.2 then e :: y :: ys else y :: insertCountDesc e ys

def sortCountsDesc {α : Type} (l : List (α × ℕ)) : List (α × ℕ) :=
  l.foldr insertCountDesc []

/-- The first entry holding the maximal count, scanning left to right. -/
def firstMax {α : Type} : List (α × ℕ) → Option (α × ℕ)
  | [] => none
  | e :: es =>
    match firstMax es with
    | none => some e
    | some m => if e.2 < m.2 then some m else some e

/-- pandas Series.idxmax: raises ValueError on an empty series, otherwise
returns the index of the (first) maximal value. -/
def idxmax {α : Type} (l : List (α × ℕ)) : Except String α :=
  match firstMax l with
  | none => .error ("attempt to get argmax of an empty sequence")
  | some m => .ok m.1

/-- Per-month size of a groupby: `value_counts().sort_index()` /
`groupby('month_year').size()`, with keys ascending. -/
def monthlySeries (months : List ℤ) : List (ℤ × ℕ) :=
  (sortedUnion months).map (fun m => (m, months.count m))

/-- DataFrame.tail(12): the last (most recent) twelve rows. -/
def tail12 {α : Type} (l : List α) : List α := l.drop (l.length - 12)

structure DateV where
  day : ℤ
  month : ℤ
  weekday : Fin 7
deriving DecidableEq

def weekdayName : Fin 7 → String
  | 0 => "Monday"
  | 1 => "Tuesday"
  | 2 => "Wednesday"
  | 3 => "Thursday"
  | 4 => "Friday"
  | 5 => "Saturday"
  | 6 => "Sunday"

structure ClaimRow where
  estado : Option String
  monto : Option ℚ
  fecha_reclamo : Option DateV
  tipo_reclamo : Option String
deriving DecidableEq

structure ClaimsFrame where
  hasEstado : Bool
  hasMonto : Bool
  hasFecha : Bool
  hasTipo : Bool
  rows : List ClaimRow
deriving DecidableEq

structure PaymentRow where
  monto : Option ℚ
  fecha_pago : Option DateV
deriving DecidableEq

structure PaymentsFrame where
  hasMonto : Bool
  hasFecha : Bool
  rows : List PaymentRow
deriving DecidableEq

/-- Ascending insertion keeping duplicates, for the sort behind median. -/
def insertRat (x : ℚ) : List ℚ → List ℚ
  | [] => [x]
  | y :: ys => if x ≤ y then x :: y :: ys else y :: insertRat x ys

def sortRat (xs : List ℚ) : List ℚ := xs.foldr insertRat []

/-- pandas Series.median(): NaN on an empty series, middle element (or the
mean of the two middles) otherwise. -/
def listMedian (xs : List ℚ) : Option ℚ :=
  let s := sortRat xs
  let n := s.length
  if n = 0 then none
  else if n % 2 = 1 then s.get? (n / 2)
  else
    match s.get? (n / 2 - 1), s.get? (n / 2) with
    | some a, some b => some ((a + b) / 2)
    | _, _ => none

/-- pandas Series.max(): NaN (none) on an empty series. -/
def maxRat (xs : List ℚ) : Option ℚ :=
  xs.foldr (fun x acc => match acc with
    | none => some x
    | some m => some (max x m)) none

/-- pandas Series.min(): NaN (none) on an empty series. -/
def minRat (xs : List ℚ) : Option ℚ :=
  xs.foldr (fun x acc => match acc with
    | none => some x
    | some m => some (min x m)) none

/-- The amount_statistics block (cassandra_s3_analytics.py lines 27-45).
The source reports round(std, 2); std = sqrt(variance) is irrational, so
the field here carries the exact sample variance (ddof=1, NaN below two
values) instead, with the understanding that the reported number is the
rounded square root.  No claim depends on it. -/
structure AmountStats where
  total_claimed_amount : ℚ
  average_claim_amount : Option ℚ
  median_claim_amount : Option ℚ
  max_claim_amount : Option ℚ
  min_claim_amount : Option ℚ
  variance_claim_amount : Option ℚ
  amount_distribution : List (String × ℕ)
deriving DecidableEq

structure TemporalAnalysis where
  monthly_claims : List (ℤ × ℕ)
  recent_claims : ℕ
  claims_by_day_of_week : List (String × ℕ)
deriving DecidableEq

structure TypeAnalysis where
  most_common_types : List (String × ℕ)
  total_claim_types : ℕ
deriving DecidableEq

/-- Result of get_claims_analysis.  A `none` section embeds the empty dict
the source returns when the section's column is absent; the three
claims_with_* fields are the data_quality block. -/
structure ClaimsAnalysisResult where
  total_claims : ℕ
  status_distribution : List (String × ℕ)
  amount_statistics : Option AmountStats
  temporal_analysis : Option TemporalAnalysis
  type_analysis : Option TypeAnalysis
  claims_with_amount : ℕ
  claims_with_date : ℕ
  claims_with_status : ℕ
deriving DecidableEq

/-- The five categorical bin counters of a value_counts over a pd.cut
column: one entry per category, zero counts included, in category order
(pandas displays them count-descending; consumers treat the dict as a
mapping and idxmax is modelled by firstMax over this list, which picks the
same entry as idxmax over the count-descending stable order). -/
def amountRangeCounts (cut : ℚ → Option (Fin 5)) (vs : List (Option ℚ)) :
    List (String × ℕ) :=
  (List.finRange 5).map (fun i => (binLabels.getD i.val "", binCount cut vs i))

/-- cassandra_s3_analytics.py lines 16-91, get_claims_analysis.  Total:
every section is guarded by a column-presence check and no raising
operation remains, so the embedding returns plainly (claim C1). -/
def get_claims_analysis (today : ℤ) (f : ClaimsFrame) : ClaimsAnalysisResult :=
  let validAmounts := f.rows.filterMap (fun r => r.monto)
  let dates := f.rows.filterMap (fun r => r.fecha_reclamo)
  let tipos := f.rows.filterMap (fun r => r.tipo_reclamo)
  { total_claims := f.rows.length
    status_distribution :=
      if f.hasEstado then value_counts (f.rows.filterMap (fun r => r.estado)) else []
    amount_statistics :=
      if f.hasMonto then
        some { total_claimed_amount := round2 validAmounts.sum
               average_claim_amount :=
                 if validAmounts.length = 0 then none
                 else some (round2 (listMean validAmounts))
               median_claim_amount := (listMedian validAmounts).map round2
               max_claim_amount := (maxRat validAmounts).map round2
               min_claim_amount := (minRat validAmounts).map round2
               variance_claim_amount :=
                 if 2 ≤ validAmounts.length then
                   some (centeredDot validAmounts validAmounts /
                     ((validAmounts.length : ℚ) - 1))
                 else none
               amount_distribution :=
                 amountRangeCounts cutIncludeLowest (validAmounts.map some) }
      else none
    temporal_analysis :=
      if f.hasFecha then
        some { monthly_claims := tail12 (monthlySeries (dates.map (fun d => d.month)))
               recent_claims := f.rows.countP (fun r =>
                 match r.fecha_reclamo with
                 | some d => today - 30 ≤ d.day
                 | none => false)
               claims_by_day_of_week :=
                 value_counts (dates.map (fun d => weekdayName d.weekday)) }
      else none
    type_analysis :=
      if f.hasTipo then
        some { most_common_types := (sortCountsDesc (value_counts tipos)).take 10
               total_claim_types := tipos.dedup.length }
      else none
    claims_with_amount :=
      if f.hasMonto then f.rows.countP (fun r => r.monto.isSome) else 0
    claims_with_date :=
      if f.hasFecha then f.rows.countP (fun r => r.fecha_reclamo.isSome) else 0
    claims_with_status :=
      if f.hasEstado then f.rows.countP (fun r => r.estado.isSome) else 0 }

/-! ## get_claims_payments_correlation (cassandra_s3_analytics.py 93-215)

The monthly comparison DataFrame aligns the per-month claim/payment counts
(and, when the monto column exists, per-month amount sums) over the sorted
union of the month indexes, zero-filling; correlations are computed when
the aligned frame has more than one row, over the FULL aligned series; only
the emitted monthly_data block is windowed with tail(12).  The weekday
section calls Series.idxmax() on value_counts of the day names, which
raises ValueError on an empty series; the amount-range idxmax operates on
a categorical value_counts that always has five entries and cannot raise.
The source feeds general_stats and monthly_comparison to
_generate_claims_payments_insights; that rule engine is embedded
separately as generate_claims_payments_insights and its correlation input
(a float rounded to 3 decimals) is not reproduced inside this result. -/

structure MonthlyEntry where
  period : ℤ
  claims_count : ℕ
  payments_count : ℕ
  claims_amount : ℚ
  payment_amount : ℚ
  claims_to_payments : ℚ
deriving DecidableEq

structure CorrStats where
  count_correlation : PearsonRep
  amount_correlation : PearsonRep
deriving DecidableEq

structure MonthlyComparison where
  correlations : Option CorrStats
  monthly_data : List MonthlyEntry
deriving DecidableEq

structure WeekdayAnalysis where
  claims_by_weekday : List (String × ℕ)
  payments_by_weekday : List (String × ℕ)
  highest_claims_day : String
  highest_payments_day : String
deriving DecidableEq

structure AmountRangeAnalysis where
  claims_by_amount_range : List (String × ℕ)
  payments_by_amount_range : List (String × ℕ)
  dominant_claims_range : String
  dominant_payments_range : String
deriving DecidableEq

/-- general_statistics block (lines 188-199).  avg_*_amount is `some 0`
when the monto column is absent (the source then reports the number 0) and
`none` when the column exists but holds no non-null value (pandas mean =
NaN). -/
structure GeneralStats where
  total_claims : ℕ
  total_payments : ℕ
  claims_to_payments : ℚ
  avg_claim_amount : Option ℚ
  avg_payment_amount : Option ℚ
  total_claims_amount : ℚ
  total_payments_amount : ℚ
  loss_ratio_pct : Option ℚ
deriving DecidableEq

structure CPCResult where
  general_statistics : GeneralStats
  monthly_comparison : Option MonthlyComparison
  weekday_analysis : Option WeekdayAnalysis
  amount_range_analysis : Option AmountRangeAnalysis
deriving DecidableEq

/-- Per-month sum of the non-null montos of the rows falling in month m
(`groupby('month_year')['monto'].sum()` with skipna). -/
def monthAmountSum (rows : List (Option DateV × Option ℚ)) (m : ℤ) : ℚ :=
  (rows.filterMap (fun rv => match rv.1, rv.2 with
    | some d, some v => if d.month = m then some v else none
    | _, _ => none)).sum

/-- The non-null month keys of the claims frame (month_year column). -/
def monthsOfClaims (claims : ClaimsFrame) : List ℤ :=
  (claims.rows.filterMap (fun r => r.fecha_reclamo)).map (fun d => d.month)

/-- The non-null month keys of the payments frame (month_year column). -/
def monthsOfPays (pays : PaymentsFrame) : List ℤ :=
  (pays.rows.filterMap (fun r => r.fecha_pago)).map (fun d => d.month)

def cpc_month_index (claims : ClaimsFrame) (pays : PaymentsFrame) : List ℤ :=
  sortedUnion (monthsOfClaims claims ++ monthsOfPays pays)

/-- Per-month claims amount series value (zero when the monto column is
absent: the empty amount Series aligns to NaN and is zero-filled). -/
def cpc_claims_amount (claims : ClaimsFrame) (m : ℤ) : ℚ :=
  if claims.hasMonto then
    monthAmountSum (claims.rows.map (fun r => (r.fecha_reclamo, r.monto))) m
  else 0

def cpc_payment_amount (pays : PaymentsFrame) (m : ℤ) : ℚ :=
  if pays.hasMonto then
    monthAmountSum (pays.rows.map (fun r => (r.fecha_pago, r.monto))) m
  else 0

/-- The monthly_comparison section (lines 108-149): pure — it cannot
raise.  Correlations are computed over the FULL aligned index; only
monthly_data is windowed with tail(12). -/
def cpc_monthly (claims : ClaimsFrame) (pays : PaymentsFrame) :
    Option MonthlyComparison :=
  if claims.hasFecha ∧ pays.hasFecha then
    some
      { correlations :=
          if 1 < (cpc_month_index claims pays).length then
            some { count_correlation :=
                     pearsonRep
                       ((cpc_month_index claims pays).map
                         (fun m => ((monthsOfClaims claims).count m : ℚ)))
                       ((cpc_month_index claims pays).map
                         (fun m => ((monthsOfPays pays).count m : ℚ)))
                   amount_correlation :=
                     pearsonRep
                       ((cpc_month_index claims pays).map (cpc_claims_amount claims))
                       ((cpc_month_index claims pays).map (cpc_payment_amount pays)) }
          else none
        monthly_data := (tail12 (cpc_month_index claims pays)).map (fun m =>
          { period := m
            claims_count := (monthsOfClaims claims).count m
            payments_count := (monthsOfPays pays).count m
            claims_amount := round2 (cpc_claims_amount claims m)
            payment_amount := round2 (cpc_payment_amount pays m)
            claims_to_payments :=
              monthly_ctp_metric ((monthsOfClaims claims).count m)
                ((monthsOfPays pays).count m) }) }
  else none

/-- The weekday section (lines 151-165); Series.idxmax raises ValueError
on an empty value_counts. -/
def cpc_weekday (claims : ClaimsFrame) (pays : PaymentsFrame) :
    Except String (Option WeekdayAnalysis) :=
  if claims.hasFecha ∧ pays.hasFecha then
    (idxmax (value_counts ((claims.rows.filterMap (fun r => r.fecha_reclamo)).map
        (fun d => weekdayName d.weekday)))).bind (fun hc =>
      (idxmax (value_counts ((pays.rows.filterMap (fun r => r.fecha_pago)).map
          (fun d => weekdayName d.weekday)))).bind (fun hp =>
        .ok (some
          { claims_by_weekday :=
              value_counts ((claims.rows.filterMap (fun r => r.fecha_reclamo)).map
                (fun d => weekdayName d.weekday))
            payments_by_weekday :=
              value_counts ((pays.rows.filterMap (fun r => r.fecha_pago)).map
                (fun d => weekdayName d.weekday))
            highest_claims_day := hc
            highest_payments_day := hp })))
  else .ok none

/-- The amount-range section (lines 167-185); its idxmax operates on a
categorical value_counts that always has five entries. -/
def cpc_amount_range (claims : ClaimsFrame) (pays : PaymentsFrame) :
    Except String (Option AmountRangeAnalysis) :=
  if claims.hasMonto ∧ pays.hasMonto then
    (idxmax (amountRangeCounts cutPlain (claims.rows.map (fun r => r.monto)))).bind
      (fun dc =>
        (idxmax (amountRangeCounts cutPlain (pays.rows.map (fun r => r.monto)))).bind
          (fun dp =>
            .ok (some
              { claims_by_amount_range :=
                  amountRangeCounts cutPlain (claims.rows.map (fun r => r.monto))
                payments_by_amount_range :=
                  amountRangeCounts cutPlain (pays.rows.map (fun r => r.monto))
                dominant_claims_range := dc
                dominant_payments_range := dp })))
  else .ok none

/-- The general_statistics block (lines 188-199). -/
def cpc_general (claims : ClaimsFrame) (pays : PaymentsFrame) : GeneralStats :=
  let cAmts := claims.rows.filterMap (fun r => r.monto)
  let pAmts := pays.rows.filterMap (fun r => r.monto)
  let tca : ℚ := if claims.hasMonto then round2 cAmts.sum else 0
  let tpa : ℚ := if pays.hasMonto then round2 pAmts.sum else 0
  { total_claims := claims.rows.length
    total_payments := pays.rows.length
    claims_to_payments :=
      claims_to_payments_metric claims.rows.length pays.rows.length
    avg_claim_amount :=
      if claims.hasMonto then
        (if cAmts.length = 0 then none else some (round2 (listMean cAmts)))
      else some 0
    avg_payment_amount :=
      if pays.hasMonto then
        (if pAmts.length = 0 then none else some (round2 (listMean pAmts)))
      else some 0
    total_claims_amount := tca
    total_payments_amount := tpa
    loss_ratio_pct := loss_ratio_stat tca tpa }

def get_claims_payments_correlation (claims : ClaimsFrame)
    (pays : PaymentsFrame) : Except String CPCResult :=
  (cpc_weekday claims pays).bind (fun weekday =>
    (cpc_amount_range claims pays).bind (fun amountRange =>
      .ok { general_statistics := cpc_general claims pays
            monthly_comparison := cpc_monthly claims pays
            weekday_analysis := weekday
            amount_range_analysis := amountRange }))

/-! ## Data Quality & Referential Integrity Checker (mysql_s3_analytics.py) -/

/-- A generic table for the quality checker: named columns and positional
row cells; a cell is `none` for null/NaN. -/
structure QTable where
  cols : List String
  rows : List (List (Option ℚ))
deriving DecidableEq

/-- Nulls in column j: one entry of `df.isnull().sum()`. -/
def col_null_count (t : QTable) (j : ℕ) : ℕ :=
  t.rows.countP (fun r => r.getD j none = none)

/-- Python division whose denominator can be zero at the call site: `none`
embeds the undefined result (a ZeroDivisionError on native ints under
pandas >= 2 where Series.to_dict returns Python ints, NaN on numpy
scalars under older pandas; in both cases not a number and in neither
case 0). -/
def pyDivOpt (a b : ℚ) : Option ℚ := if b = 0 then none else some (a / b)

/-- numpy.mean over possibly-undefined inputs: NaN on an empty list or
when any input is NaN. -/
def meanOpt (xs : List (Option ℚ)) : Option ℚ :=
  if xs.length = 0 then none
  else if xs.any (fun x => x = none) then none
  else some ((xs.filterMap id).sum / xs.length)

/-- The per-table quality block of _analyze_table_quality.  The source also
reports dtype_distribution and memory_usage_mb, which have no data content
in this embedding (dtypes and byte sizes are not modelled). -/
structure QualityReport where
  total_rows : ℕ
  total_columns : ℕ
  null_counts : List (String × ℕ)
  null_percentages : List (String × Option ℚ)
  duplicate_rows : ℕ
  duplicate_percentage : ℚ
  completeness_score : Option ℚ
deriving DecidableEq

/-- mysql_s3_analytics.py lines 313-343, _analyze_table_quality.  Note that
null_percentages and completeness_score divide by total_rows without any
guard (duplicate_percentage alone is guarded), so a zero-row table makes
them undefined. -/
def _analyze_table_quality (t : QTable) : QualityReport :=
  let total_rows := t.rows.length
  let ncs := t.cols.enum.map (fun jc => (jc.2, col_null_count t jc.1))
  let completeness_scores :=
    ncs.map (fun cn => pyDivOpt ((total_rows : ℚ) - cn.2) total_rows)
  let dup := total_rows - t.rows.dedup.length
  { total_rows := total_rows
    total_columns := t.cols.length
    null_counts := ncs
    null_percentages := ncs.map (fun cn =>
      (cn.1, (pyDivOpt (cn.2 : ℚ) total_rows).map (fun p => round2 (p * 100))))
    duplicate_rows := dup
    duplicate_percentage :=
      if 0 < total_rows then round2 ((dup : ℚ) / total_rows * 100) else 0
    completeness_score :=
      (meanOpt completeness_scores).map (fun m => round2 (m * 100)) }

/-- One referential_integrity entry of get_data_quality_report
(mysql_s3_analytics.py lines 270-278 for clients->users, identically
281-289 for beneficiaries->clients).  The surrounding code only builds the
entry when both key columns are present, which is the hypothesis of claim
C7.  pandas isin matches a null child key exactly when the parent column
also contains a null. -/
structure IntegrityEntry where
  valid_references : ℕ
  total_records : ℕ
  integrity_percentage : ℚ
  orphaned_records : ℤ
deriving DecidableEq

def integrity_entry (child parent : List (Option ℚ)) : IntegrityEntry :=
  let valid := child.countP (fun v => parent.contains v)
  let total := child.length
  { valid_references := valid
    total_records := total
    integrity_percentage :=
      if 0 < total then round2 ((valid : ℚ) / total * 100) else 0
    orphaned_records := (total : ℤ) - valid }

/-! ## Cross-microservice analytics (cross_microservice_analytics.py) -/

/-- pandas merge column naming: overlapping column names receive the
respective suffix (the join keys are distinct names at every call site
here, so they participate in the overlap rule like any other column);
non-overlapping names are kept unchanged. -/
def merged_cols (lcols rcols : List String) (lsuf rsuf : String) : List String :=
  lcols.map (fun c => if c ∈ rcols then c ++ lsuf else c) ++
    rcols.map (fun c => if c ∈ lcols then c ++ rsuf else c)

/-- A frame reduced to its column set, for analyses whose claims only
concern column handling. -/
structure ColsFrame where
  cols : List String
deriving DecidableEq

/-- The columns demanded with no guard by the groupby/agg of
cross_microservice_analytics.py lines 136-141; pandas raises KeyError when
any is missing from the merged frame, and the function's except-block
re-raises it. -/
def agentGroupbyCols : List String :=
  ["code_agent", "first_name", "last_name", "is_active",
   "policy_number", "premium", "sum_insured", "product_id"]

inductive AgentPerfOut where
  | errObj (msg : String)
  | proceeds (mergedColumns : List String)
deriving DecidableEq

/-- Column set after the agents-policies merge and the optional products
merge (cross_microservice_analytics.py lines 125-133). -/
def agent_merged_columns (agents policies products : ColsFrame) : List String :=
  let ap := merged_cols agents.cols policies.cols "_agent" "_policy"
  if "product_id" ∈ ap ∧ "code" ∈ products.cols then
    merged_cols ap products.cols "" "_product"
  else ap

/-- cross_microservice_analytics.py lines 113-199,
get_agent_performance_across_systems, embedded through its column logic:
the explicit key guard (lines 124-127) returning an error object, the
optional product join (lines 130-133), and the unguarded groupby
(line 136) whose missing columns raise.  The aggregation output of the
success branch is summarized by `proceeds` carrying the merged column set;
no claim concerns its numeric content. -/
def get_agent_performance_across_systems
    (agents policies products : ColsFrame) : Except String AgentPerfOut :=
  if "code" ∈ agents.cols ∧ "agent_id" ∈ policies.cols then
    let fa := agent_merged_columns agents policies products
    if agentGroupbyCols.all (fun c => decide (c ∈ fa)) then .ok (.proceeds fa)
    else .error ("KeyError: groupby/agg column missing from merged agent data")
  else .ok (.errObj ("Cannot join agents with policies - missing key columns"))

inductive CPPOut where
  | errObj (msg : String)
  | proceeds (profileColumns : List String)
deriving DecidableEq

/-- cross_microservice_analytics.py lines 16-111,
get_customer_policy_profile, embedded through its join-guard logic
(lines 27-37): a missing join key yields a structured error object — not
a separate-analysis fallback and not a raise.  The successful double join
proceeds into the demographic/value analysis (needed by no claim); the
merged column set witnesses that the joins were attempted. -/
def get_customer_policy_profile (users clients policies : ColsFrame) : CPPOut :=
  if "id" ∈ users.cols ∧ "user_id" ∈ clients.cols then
    let uc := merged_cols users.cols clients.cols "_user" "_client"
    if "user_id" ∈ uc ∧ "customer_id" ∈ policies.cols then
      .proceeds (merged_cols uc policies.cols "" "_policy")
    else .errObj ("Cannot join clients with policies - missing customer_id")
  else .errObj ("Cannot join users and clients - missing key columns")

structure PolicyRow where
  id : Option ℚ
  policy_number : Option ℚ
  product_id : Option ℚ
  created_at : Option ℤ
  premium : Option ℚ
deriving DecidableEq

structure PoliciesFrame where
  cols : List String
  rows : List PolicyRow
deriving DecidableEq

structure ProductRow where
  code : Option ℚ
deriving DecidableEq

structure ProductsFrame where
  cols : List String
  rows : List ProductRow
deriving DecidableEq

structure CvPClaimRow where
  policy_id : Option ℚ
  policy_number : Option ℚ
  estado : Option String
  monto : Option ℚ
  fecha_reclamo : Option ℤ
deriving DecidableEq

structure CvPClaimsFrame where
  cols : List String
  rows : List CvPClaimRow
deriving DecidableEq

/-- Left join of policies with products on product_id = code
(cross_microservice_analytics.py lines 212-215).  A left row is emitted
once per matching product row (or once with no match); only policy-side
fields are consulted downstream, the product side contributes its column
names (suffixing!) and its row multiplicities. -/
def policiesWithProducts (policies : PoliciesFrame)
    (products : ProductsFrame) : PoliciesFrame :=
  if "product_id" ∈ policies.cols ∧ "code" ∈ products.cols then
    { cols := merged_cols policies.cols products.cols "_policy" "_product"
      rows := policies.rows.flatMap (fun p =>
        let ms := products.rows.filter (fun q => q.code == p.product_id)
        if ms.isEmpty then [p] else ms.map (fun _ => p)) }
  else policies

/-- Left join of the merged policies frame with claims on a chosen pair of
keys; pandas merge matches null keys with null keys. -/
def mergePoliciesClaims (prows : List PolicyRow) (crows : List CvPClaimRow)
    (pkey : PolicyRow → Option ℚ) (ckey : CvPClaimRow → Option ℚ) :
    List (PolicyRow × Option CvPClaimRow) :=
  prows.flatMap (fun p =>
    let ms := crows.filter (fun c => ckey c == pkey p)
    if ms.isEmpty then [(p, none)] else ms.map (fun c => (p, some c)))

/-- Result of _analyze_separate_claims_policies
(cross_microservice_analytics.py lines 283-327).  An outer `none` embeds a
key the source leaves out when the guarding column is absent; in
avg_claim_amount the inner `none` embeds NaN (mean of no non-null
montos). -/
structure SeparateAnalysis where
  total_policies : ℕ
  total_claims : ℕ
  note : String
  monthly_policies : Option (List (ℤ × ℕ))
  monthly_claims : Option (List (ℤ × ℕ))
  claims_by_status : Option (List (String × ℕ))
  total_claims_amount : Option ℚ
  avg_claim_amount : Option (Option ℚ)
deriving DecidableEq

def analyze_separate_claims_policies (policies : PoliciesFrame)
    (claims : CvPClaimsFrame) : SeparateAnalysis :=
  let cAmts := claims.rows.filterMap (fun r => r.monto)
  { total_policies := policies.rows.length
    total_claims := claims.rows.length
    note := "Analysis performed separately - no direct JOIN possible"
    monthly_policies :=
      if "created_at" ∈ policies.cols then
        some (tail12 (monthlySeries (policies.rows.filterMap (fun r => r.created_at))))
      else none
    monthly_claims :=
      if "fecha_reclamo" ∈ claims.cols then
        some (tail12 (monthlySeries (claims.rows.filterMap (fun r => r.fecha_reclamo))))
      else none
    claims_by_status :=
      if "estado" ∈ claims.cols then
        some (value_counts (claims.rows.filterMap (fun r => r.estado)))
      else none
    total_claims_amount :=
      if "monto" ∈ claims.cols then some (round2 cAmts.sum) else none
    avg_claim_amount :=
      if "monto" ∈ claims.cols then
        some (if cAmts.length = 0 then none else some (round2 (listMean cAmts)))
      else none }

/-- The summary and financial_analysis blocks of the joined branch of
get_claims_vs_policies_analysis (lines 231-268).  The per-product
product_analysis block (lines 239-248) is consulted by no claim and is
not carried here. -/
structure JoinedSummary where
  total_policies : ℕ
  policies_with_claims : ℕ
  claim_rate_percentage : ℚ
  total_claims : ℕ
  fin_total_claims_amount : Option ℚ
  fin_total_premiums : Option ℚ
  fin_loss_pct : Option ℚ
  fin_avg_claim_amount : Option (Option ℚ)
deriving DecidableEq

def joinedAnalysis (pwp : PoliciesFrame) (claims : CvPClaimsFrame)
    (merged : List (PolicyRow × Option CvPClaimRow)) : JoinedSummary :=
  let mcols := merged_cols pwp.cols claims.cols "_policy" "_claim"
  let total := pwp.rows.length
  let pwc :=
    if "estado" ∈ mcols then
      merged.countP (fun pc => match pc.2 with
        | some c => c.estado.isSome
        | none => false)
    else 0
  let mAmts := merged.filterMap (fun pc => pc.2.bind (fun c => c.monto))
  let mPrem := merged.filterMap (fun pc => pc.1.premium)
  let finOk := "monto" ∈ mcols ∧ "premium" ∈ mcols
  { total_policies := total
    policies_with_claims := pwc
    claim_rate_percentage :=
      if 0 < total then round2 ((pwc : ℚ) / total * 100) else 0
    total_claims := claims.rows.length
    fin_total_claims_amount := if finOk then some (round2 mAmts.sum) else none
    fin_total_premiums := if finOk then some (round2 mPrem.sum) else none
    fin_loss_pct :=
      if finOk then some (loss_ratio_metric mAmts.sum mPrem.sum) else none
    fin_avg_claim_amount :=
      if finOk then
        some (if mAmts.length = 0 then none else some (round2 (listMean mAmts)))
      else none }

inductive CvPOut where
  | separate (s : SeparateAnalysis)
  | joined (j : JoinedSummary)
deriving DecidableEq

/-- cross_microservice_analytics.py lines 201-281,
get_claims_vs_policies_analysis: first the optional product join, then the
three-way dispatch on available join keys (lines 217-229).  Missing `id`
on policies or missing policy_id/policy_number on claims falls back to the
separate analysis; a policy_number merge whose left side lost the column
to suffixing raises KeyError, as does an id merge whose left side lost
`id`. -/
def get_claims_vs_policies_analysis (policies : PoliciesFrame)
    (claims : CvPClaimsFrame) (products : ProductsFrame) :
    Except String CvPOut :=
  let pwp := policiesWithProducts policies products
  if "id" ∈ policies.cols then
    if "policy_id" ∈ claims.cols then
      if "id" ∈ pwp.cols then
        .ok (.joined (joinedAnalysis pwp claims
          (mergePoliciesClaims pwp.rows claims.rows
            (fun p => p.id) (fun c => c.policy_id))))
      else .error ("KeyError: id")
    else if "policy_number" ∈ claims.cols then
      if "policy_number" ∈ pwp.cols then
        .ok (.joined (joinedAnalysis pwp claims
          (mergePoliciesClaims pwp.rows claims.rows
            (fun p => p.policy_number) (fun c => c.policy_number))))
      else .error ("KeyError: policy_number")
    else .ok (.separate (analyze_separate_claims_policies pwp claims))
  else .ok (.separate (analyze_separate_claims_policies pwp claims))

/-! ## Health check endpoint (main.py lines 84-115) -/

inductive HealthResult (α β : Type) where
  | okResult (timestamp : String) (data_availability : α) (bucket_summary : β)
  | errResult (timestamp : String) (error : String)
deriving DecidableEq

def HealthResult.status {α β : Type} : HealthResult α β → String
  | .okResult _ _ _ => "OK"
  | .errResult _ _ => "ERROR"

/-- main.py health_check.  The outcomes of the two availability probes
(s3_manager.check_data_availability and get_s3_bucket_summary, which can
raise, e.g. on missing credentials) enter as Except values; the endpoint
itself is total: its try/except converts any exception into a
status-"ERROR" mapping with the timestamp and the message.  The second
probe is only consulted when the first succeeded, matching Python's
sequential evaluation inside the try block. -/
def health_check {α β : Type} (now : String)
    (avail : Except String α) (summary : Except String β) : HealthResult α β :=
  match avail with
  | .error e => .errResult now e
  | .ok a =>
    match summary with
    | .error e => .errResult now e
    | .ok b => .okResult now a b

/-! ## Concrete frames for the claim C5 counterexample: thirteen months of
data whose first month is an outlier, so that the Pearson coefficient over
the full aligned series differs from the coefficient over the 12-month
window. -/

def cexClaimRow (m : ℤ) : ClaimRow :=
  { estado := none, monto := none
    fecha_reclamo := some { day := 0, month := m, weekday := 0 }
    tipo_reclamo := none }

def cexPayRow (m : ℤ) : PaymentRow :=
  { monto := none, fecha_pago := some { day := 0, month := m, weekday := 0 } }

/-- 5 claims in month 0, one in each of months 1-11, two in month 12. -/
def cexClaims : ClaimsFrame :=
  { hasEstado := false, hasMonto := false, hasFecha := true, hasTipo := false
    rows := ([0, 0, 0, 0, 0, 1, 2, 3, 4, 5, 6, 7, 8, 9, 10, 11, 12, 12] :
      List ℤ).map cexClaimRow }

/-- One payment in each of months 0-11, two in month 12. -/
def cexPays : PaymentsFrame :=
  { hasMonto := false, hasFecha := true
    rows := ([0, 1, 2, 3, 4, 5, 6, 7, 8, 9, 10, 11, 12, 12] : List ℤ).map cexPayRow }

/-- Monthly claim counts over the full 13-month index. -/
def cexFullX : List ℚ := [5, 1, 1, 1, 1, 1, 1, 1, 1, 1, 1, 1, 2]

/-- Monthly payment counts over the full 13-month index. -/
def cexFullY : List ℚ := [1, 1, 1, 1, 1, 1, 1, 1, 1, 1, 1, 1, 2]

/-- The same two series restricted to the 12-month window (months 1-12). -/
def cexWindowX : List ℚ := [1, 1, 1, 1, 1, 1, 1, 1, 1, 1, 1, 2]

def cexWindowY : List ℚ := [1, 1, 1, 1, 1, 1, 1, 1, 1, 1, 1, 2]

/-- The monthly_comparison block computed on the counterexample frames. -/
def cexMonthly : Option MonthlyComparison :=
  match get_claims_payments_correlation cexClaims cexPays with
  | .ok r => r.monthly_comparison
  | .error _ => none

/-! Small single-month frames used to instantiate the C5 window theorem. -/

def cexWClaims : ClaimsFrame :=
  { hasEstado := false, hasMonto := false, hasFecha := true, hasTipo := false
    rows := [cexClaimRow 0] }

def cexWPays : PaymentsFrame :=
  { hasMonto := false, hasFecha := true, rows := [cexPayRow 0] }

def cexWMonthly : MonthlyComparison :=
  { correlations := none
    monthly_data := [{ period := 0
                       claims_count := 1
                       payments_count := 1
                       claims_amount := round2 (cpc_claims_amount cexWClaims 0)
                       payment_amount := round2 (cpc_payment_amount cexWPays 0)
                       claims_to_payments := monthly_ctp_metric 1 1 }] }

def cexWResult : CPCResult :=
  { general_statistics := cpc_general cexWClaims cexWPays
    monthly_comparison := cpc_monthly cexWClaims cexWPays
    weekday_analysis := some
      { claims_by_weekday := [("Monday", 1)]
        payments_by_weekday := [("Monday", 1)]
        highest_claims_day := "Monday"
        highest_payments_day := "Monday" }
    amount_range_analysis := none }

/-! ## Helper lemmas -/

theorem roundHalfEven_abs_le (q : ℚ) : |(roundHalfEven q : ℚ) - q| ≤ 1/2 := by
  have hfl : (⌊q⌋ : ℚ) ≤ q := Int.floor_le q
  have hfu : q < (⌊q⌋ : ℚ) + 1 := Int.lt_floor_add_one q
  unfold roundHalfEven
  split
  · rw [abs_sub_le_iff]
    constructor <;> linarith
  · split
    · push_cast
      rw [abs_sub_le_iff]
      constructor <;> linarith
    · have heq : q - (⌊q⌋ : ℚ) = 1/2 := by
        rename_i hno1 hno2
        linarith [not_lt.mp hno1, not_lt.mp hno2]
      split <;> [skip; push_cast] <;> rw [abs_sub_le_iff] <;>
        constructor <;> linarith

/-- The reported 2-decimal rounding is within 1/200 of the exact value. -/
theorem round2_abs_le (q : ℚ) : |round2 q - q| ≤ 1/200 := by
  unfold round2
  have h := roundHalfEven_abs_le (q * 100)
  rw [abs_sub_le_iff] at h ⊢
  constructor <;> [skip; skip] <;>
    · have h1 := h.1
      have h2 := h.2
      nlinarith

theorem round2_intCast (n : ℤ) : round2 (n : ℚ) = n := by
  unfold round2 roundHalfEven
  have h1 : ((n : ℚ) * 100) = ((n * 100 : ℤ) : ℚ) := by push_cast; ring
  rw [h1, Int.floor_intCast]
  simp

/-! ## Binning Module

Embeds `pd.cut(values, bins=[0, 1000, 5000, 10000, 50000, inf],
labels=['< 1K', '1K-5K', '5K-10K', '10K-50K', '50K+'])`.  A cut returns the
index of the bin a value falls into, or `none` when the value lies outside
every interval (pandas assigns NaN there).  `cutIncludeLowest` is the
variant of cassandra_s3_analytics.py line 43 (include_lowest=True: first
interval [0, 1000] closed at 0); `cutPlain` is the variant of
cassandra_s3_analytics.py lines 174-175 (first interval (0, 1000] open
at 0). -/

theorem sum_countP_eq_countP_isSome {α : Type} {n : ℕ} (g : α → Option (Fin n))
    (vs : List α) :
    (∑ i : Fin n, vs.countP (fun a => g a = some i)) =
      vs.countP (fun a => (g a).isSome) := by
  induction vs with
  | nil => simp
  | cons a tl ih =>
    rcases hga : g a with _ | j
    · simp [List.countP_cons, hga, ih]
    · simp only [List.countP_cons, hga]
      simp only [decide_eq_true_eq, Option.some.injEq, Option.isSome_some]
      rw [Finset.sum_add_distrib, ih]
      have hone : (∑ i : Fin n, if j = i then 1 else 0) = 1 := by
        simp [Finset.sum_ite_eq]
      rw [hone]
      simp

theorem cutIncludeLowest_isSome {v : ℚ} (h : 0 ≤ v) : (cutIncludeLowest v).isSome := by
  unfold cutIncludeLowest
  split_ifs with h1 h2 h3 h4 h5 <;> simp
  push_neg at h1 h2 h3 h4
  exact absurd (h4 (h3 (h2 (h1 h)))) h5

theorem cutPlain_isSome {v : ℚ} (h : 0 < v) : (cutPlain v).isSome := by
  unfold cutPlain
  split_ifs with h1 h2 h3 h4 h5 <;> simp
  push_neg at h1 h2 h3 h4
  exact absurd (h4 (h3 (h2 (h1 h)))) h5

theorem cutPlain_zero : cutPlain 0 = none := by decide

/-! ## Pandas float arithmetic

The guarded ratios in the sources divide Python scalars behind an explicit
`if denominator > 0` check, so they always produce a finite number and are
embedded directly into `ℚ`.  The two product-profitability ratios
(postgresql_s3_analytics.py lines 107-115) divide pandas Series with no
guard; IEEE semantics then yield `inf`, `-inf` or `NaN` on a zero
denominator, captured by `PFloat`. -/

theorem centeredDot_comm (xs ys : List ℚ) : centeredDot xs ys = centeredDot ys xs := by
  unfold centeredDot
  rw [List.zipWith_comm (fun a b => (a - listMean xs) * (b - listMean ys)) xs ys]
  have hf : (fun b a => (a - listMean xs) * (b - listMean ys))
      = fun b a => (b - listMean ys) * (a - listMean xs) := by
    funext b a
    ring
  rw [hf]

theorem mem_insertPeriod {a x : ℤ} {l : List ℤ} :
    a ∈ insertPeriod x l ↔ a = x ∨ a ∈ l := by
  induction l with
  | nil => simp [insertPeriod]
  | cons y ys ih =>
    unfold insertPeriod
    split_ifs with h1 h2
    · simp [List.mem_cons]
    · subst h2
      simp only [List.mem_cons]
      tauto
    · simp only [List.mem_cons, ih]
      tauto

theorem insertPeriod_sorted {x : ℤ} {l : List ℤ}
    (h : List.Sorted (· < ·) l) : List.Sorted (· < ·) (insertPeriod x l) := by
  induction l with
  | nil => simp [insertPeriod]
  | cons y ys ih =>
    rw [List.sorted_cons] at h
    unfold insertPeriod
    split_ifs with h1 h2
    · rw [List.sorted_cons]
      refine ⟨?_, List.sorted_cons.mpr h⟩
      intro b hb
      rcases List.mem_cons.mp hb with hb | hb
      · exact hb ▸ h1
      · exact lt_trans h1 (h.1 b hb)
    · exact List.sorted_cons.mpr h
    · rw [List.sorted_cons]
      refine ⟨?_, ih h.2⟩
      intro b hb
      rcases mem_insertPeriod.mp hb with hb | hb
      · subst hb
        exact lt_of_le_of_ne (not_lt.mp h1) (Ne.symm h2)
      · exact h.1 b hb

theorem sortedUnion_sorted (ps : List ℤ) : List.Sorted (· < ·) (sortedUnion ps) := by
  induction ps with
  | nil => simp [sortedUnion]
  | cons p tl ih => exact insertPeriod_sorted ih

theorem mem_sortedUnion {a : ℤ} {ps : List ℤ} : a ∈ sortedUnion ps ↔ a ∈ ps := by
  induction ps with
  | nil => simp [sortedUnion]
  | cons p tl ih =>
    show a ∈ insertPeriod p (sortedUnion tl) ↔ _
    rw [mem_insertPeriod, ih, List.mem_cons]

theorem idxmax_nil_error {α : Type} :
    (idxmax ([] : List (α × ℕ))).isOk = false := by
  rfl

theorem firstMax_cons_isSome {α : Type} (e : α × ℕ) (es : List (α × ℕ)) :
    (firstMax (e :: es)).isSome := by
  unfold firstMax
  cases firstMax es with
  | none => rfl
  | some m => by_cases h : e.2 < m.2 <;> simp [h]

theorem idxmax_isOk_of_ne_nil {α : Type} {l : List (α × ℕ)} (h : l ≠ []) :
    ∃ a, idxmax l = .ok a := by
  cases l with
  | nil => exact absurd rfl h
  | cons e es =>
    obtain ⟨m, hm⟩ := Option.isSome_iff_exists.mp (firstMax_cons_isSome e es)
    exact ⟨m.1, by unfold idxmax; rw [hm]⟩

theorem tail12_length_le {α : Type} (l : List α) : (tail12 l).length ≤ 12 := by
  unfold tail12
  rw [List.length_drop]
  omega

theorem tail12_sorted {l : List ℤ} (h : List.Sorted (· < ·) l) :
    List.Sorted (· < ·) (tail12 l) :=
  h.sublist (List.drop_sublist _ l)

/-- Every month dropped by the 12-month window is strictly older than every
month kept: the window keeps the most recent periods. -/
theorem tail12_most_recent {l : List ℤ} (h : List.Sorted (· < ·) l) :
    ∀ a ∈ l.take (l.length - 12), ∀ b ∈ tail12 l, a < b := by
  have hsplit : l.take (l.length - 12) ++ l.drop (l.length - 12) = l :=
    List.take_append_drop _ l
  have hp : (l.take (l.length - 12) ++ l.drop (l.length - 12)).Pairwise (· < ·) := by
    rw [hsplit]; exact h
  exact (List.pairwise_append.mp hp).2.2

/-! ## Cassandra analytics (cassandra_s3_analytics.py)

A parsed datetime value: `day` is an absolute day index (for the
`datetime.now() - timedelta(days=30)` comparison, with `now` passed in as
the `today` parameter), `month` the `to_period('M')` month index, and
`weekday` the `dt.day_name()` weekday.  A DataFrame becomes the list of
its rows plus one boolean per optional column recording membership in
`df.columns`; row fields of absent columns are ignored by construction. -/

/-! ## Claim theorems -/

/-- C10 (confirmed): for every outcome of the availability probes, the
health-check endpoint never raises: its status is always "OK" or "ERROR";
when gathering data availability or the bucket summary throws, the result
is the status-"ERROR" mapping carrying the timestamp and that error
message (availability first, matching evaluation order); when both
succeed, the result is status "OK" with the availability and summary
blocks. -/
theorem health_check_total {α β : Type} (now : String)
    (avail : Except String α) (summary : Except String β) :
    ((health_check now avail summary).status = "OK" ∨
      (health_check now avail summary).status = "ERROR") ∧
    (∀ e, avail = .error e →
      health_check now avail summary = .errResult now e) ∧
    (∀ a e, avail = .ok a → summary = .error e →
      health_check now avail summary = .errResult now e) ∧
    (∀ a b, avail = .ok a → summary = .ok b →
      health_check now avail summary = .okResult now a b) := by
  rcases avail with e | a <;> rcases summary with e2 | b <;>
    simp [health_check, HealthResult.status]

theorem health_check_total_witness :
    health_check "t0" (Except.error ("boom") : Except String ℕ)
        (Except.ok (5 : ℕ)) = HealthResult.errResult "t0" ("boom") ∧
    health_check "t0" (Except.ok (1 : ℕ)) (Except.ok (5 : ℕ))
      = HealthResult.okResult "t0" 1 5 :=
  ⟨(health_check_total "t0" _ _).2.1 "boom" rfl,
   (health_check_total "t0" _ _).2.2.2 1 5 rfl rfl⟩

/-- C3 (amended): the scalar-guarded ratio metrics (loss ratio,
claims-to-payments ratio — overall and per month —, penetration rate,
sales penetration) are reported as exactly 0 whenever their denominator is
0 (the cassandra loss_ratio key is omitted instead), and being rational
they are never NaN or infinite; the two pandas-Series ratios of the
product-profitability analysis are NOT guarded: with a zero denominator
premium_efficiency and premium_to_exposure_ratio evaluate to a signed
infinity (NaN when the numerator is 0 too, or when an operand is already
NaN) rather than 0. -/
theorem ratio_zero_denominator_behavior :
    (∀ c : ℕ, penetration_rate c 0 = 0) ∧
    (∀ c : ℕ, claims_to_payments_metric c 0 = 0) ∧
    (∀ c : ℕ, monthly_ctp_metric c 0 = 0) ∧
    (∀ a p : ℚ, p ≤ 0 → loss_ratio_metric a p = 0) ∧
    (∀ a p : ℚ, p ≤ 0 → loss_ratio_stat a p = none) ∧
    (∀ s : ℕ, sales_penetration s 0 = 0) ∧
    (∀ pm : ℚ, premium_efficiency (some pm) (some 0) =
      (if pm = 0 then PFloat.nan
       else if 0 < pm then PFloat.posInf else PFloat.negInf)) ∧
    (premium_efficiency none none = PFloat.nan) ∧
    (∀ ps : ℚ, premium_to_exposure_metric ps 0 =
      (if ps = 0 then PFloat.nan
       else if 0 < ps then PFloat.posInf else PFloat.negInf)) := by
  refine ⟨?_, ?_, ?_, ?_, ?_, ?_, ?_, rfl, ?_⟩
  · intro c; simp [penetration_rate]
  · intro c; simp [claims_to_payments_metric]
  · intro c; simp [monthly_ctp_metric]
  · intro a p hp; simp [loss_ratio_metric, not_lt.mpr hp]
  · intro a p hp; simp [loss_ratio_stat, not_lt.mpr hp]
  · intro s; simp [sales_penetration]
  · intro pm
    by_cases h0 : pm = 0
    · simp [premium_efficiency, pdDiv, pdRound2, h0]
    · by_cases hpos : 0 < pm <;>
        simp [premium_efficiency, pdDiv, pdRound2, pdMul100, h0, hpos]
  · intro ps
    by_cases h0 : ps = 0
    · simp [premium_to_exposure_metric, pdDiv, pdRound2, pdMul100, h0]
    · by_cases hpos : 0 < ps <;>
        simp [premium_to_exposure_metric, pdDiv, pdRound2, pdMul100, h0, hpos]

theorem ratio_zero_denominator_behavior_witness :
    loss_ratio_metric 90 0 = 0 ∧ loss_ratio_stat 90 0 = none ∧
    penetration_rate 7 0 = 0 :=
  ⟨ratio_zero_denominator_behavior.2.2.2.1 90 0 le_rfl,
   ratio_zero_denominator_behavior.2.2.2.2.1 90 0 le_rfl,
   ratio_zero_denominator_behavior.1 7⟩

/-- C3 counterexample: the claim states every derived ratio metric,
premium_to_exposure_ratio among them, is reported as 0 on a zero
denominator; with premium_sum 5 and sum_insured_sum 0 the code divides the
pandas Series with no guard and reports +infinity, not 0. -/
theorem premium_to_exposure_not_zero :
    premium_to_exposure_metric 5 0 = PFloat.posInf ∧
    premium_to_exposure_metric 5 0 ≠ PFloat.num 0 := by
  constructor <;> decide

/-- C7 (amended): the referential-integrity entry always reports
orphanCount = totalCount − validCount; integrityPercentage is 0 when
totalCount is 0 and otherwise round(validCount/totalCount·100, 2) — i.e.
the claimed formula up to the 2-decimal reporting rounding, within 1/200
of the exact ratio; when every child key occurs in the parent's key column
the reported percentage is exactly 100 with orphanCount 0, and when no
child key occurs in the parent it is exactly 0. -/
theorem integrity_entry_spec (child parent : List (Option ℚ)) :
    (integrity_entry child parent).orphaned_records =
      ((integrity_entry child parent).total_records : ℤ) -
        (integrity_entry child parent).valid_references ∧
    (child.length = 0 → (integrity_entry child parent).integrity_percentage = 0) ∧
    (0 < child.length →
      (integrity_entry child parent).integrity_percentage =
        round2 (((integrity_entry child parent).valid_references : ℚ) /
          child.length * 100) ∧
      |(integrity_entry child parent).integrity_percentage -
        ((integrity_entry child parent).valid_references : ℚ) /
          child.length * 100| ≤ 1/200) ∧
    (0 < child.length → (∀ k ∈ child, k ∈ parent) →
      (integrity_entry child parent).integrity_percentage = 100 ∧
      (integrity_entry child parent).orphaned_records = 0) ∧
    ((∀ k ∈ child, k ∉ parent) →
      (integrity_entry child parent).integrity_percentage = 0) := by
  refine ⟨by simp [integrity_entry], ?_, ?_, ?_, ?_⟩
  · intro h0
    simp [integrity_entry, h0]
  · intro hpos
    constructor
    · simp [integrity_entry, hpos]
    · simp only [integrity_entry, hpos, if_pos]
      exact round2_abs_le _
  · intro hpos hsub
    have hvalid : child.countP (fun v => parent.contains v) = child.length :=
      List.countP_eq_length.mpr (fun a ha => by simpa using hsub a ha)
    have hne : (child.length : ℚ) ≠ 0 := by
      exact_mod_cast Nat.pos_iff_ne_zero.mp hpos
    constructor
    · simp only [integrity_entry, hvalid, hpos, if_pos]
      rw [div_self hne]
      have h100 := round2_intCast 100
      norm_num at h100
      simpa using h100
    · simp only [integrity_entry]
      rw [hvalid]
      simp
  · intro hdisj
    have hvalid : child.countP (fun v => parent.contains v) = 0 :=
      List.countP_eq_zero.mpr (fun a ha => by simpa using hdisj a ha)
    rcases Nat.eq_zero_or_pos child.length with h0 | hpos
    · simp [integrity_entry, h0]
    · simp only [integrity_entry, hvalid, hpos, if_pos]
      have h0r := round2_intCast 0
      norm_num at h0r
      simpa using h0r

theorem integrity_entry_spec_witness :
    (integrity_entry [some 1, some 2] [some 1, some 2, some 3]).integrity_percentage
        = 100 ∧
    (integrity_entry [some 1, some 2] [some 1, some 2, some 3]).orphaned_records
        = 0 ∧
    (integrity_entry [some 7, some 8] [some 1]).integrity_percentage = 0 :=
  ⟨((integrity_entry_spec [some 1, some 2] [some 1, some 2, some 3]).2.2.2.1
      (by decide) (by decide)).1,
   ((integrity_entry_spec [some 1, some 2] [some 1, some 2, some 3]).2.2.2.1
      (by decide) (by decide)).2,
   (integrity_entry_spec [some 7, some 8] [some 1]).2.2.2.2 (by decide)⟩

/-- C7 counterexample: the claim states the reported integrityPercentage
equals validCount/totalCount·100 exactly; with child keys [1,2,3] and
parent keys [1] the code reports round((1/3)·100, 2) = 33.33, which is not
(1/3)·100 = 100/3. -/
theorem integrity_percentage_is_rounded :
    (integrity_entry [some 1, some 2, some 3] [some 1]).valid_references = 1 ∧
    (integrity_entry [some 1, some 2, some 3] [some 1]).total_records = 3 ∧
    (integrity_entry [some 1, some 2, some 3] [some 1]).integrity_percentage
      = 3333/100 ∧
    (3333/100 : ℚ) ≠ (1 : ℚ) / 3 * 100 := by
  refine ⟨by decide, by decide, ?_, by norm_num⟩
  simp [integrity_entry]
  norm_num [round2, roundHalfEven]

theorem meanOpt_map_some {α : Type} (f : α → ℚ) (l : List α) (h : l ≠ []) :
    meanOpt (l.map (fun a => some (f a))) = some ((l.map f).sum / l.length) := by
  simp only [meanOpt, List.length_map, List.length_eq_zero, h, if_false]
  have hany : ((l.map (fun a => some (f a))).any (fun x => decide (x = none))) = false := by
    simp
  rw [hany]
  have hfm : List.filterMap (fun a => some (f a)) l = List.map f l :=
    congrFun (List.filterMap_eq_map f) l
  simp [hfm]

theorem meanOpt_map_none {α : Type} (l : List α) :
    meanOpt (l.map (fun _ => (none : Option ℚ))) = none := by
  cases l with
  | nil => simp [meanOpt]
  | cons a tl => simp [meanOpt]

/-- C6 (amended): for a table with at least one row and at least one
column, the per-table quality assessment reports completenessScore equal
to the mean over all columns of (rowCount − nullCount)/rowCount expressed
as a percentage (rounded to 2 decimals, as the code reports it); for a
table with zero rows the per-column division is undefined (NaN on numpy
scalars, ZeroDivisionError on the native ints returned by to_dict under
pandas 2) and the score is undefined — the code has no path reporting 0
together with a "no data" flag. -/
theorem completeness_score_spec (t : QTable) :
    (0 < t.rows.length → t.cols ≠ [] →
      (_analyze_table_quality t).completeness_score =
        some (round2
          (((t.cols.enum.map (fun jc =>
              ((t.rows.length : ℚ) - col_null_count t jc.1) / t.rows.length)).sum /
            t.cols.length) * 100))) ∧
    (t.rows.length = 0 →
      (_analyze_table_quality t).completeness_score = none) := by
  constructor
  · intro hrows hcols
    have hlen0 : (t.rows.length : ℚ) ≠ 0 := by
      exact_mod_cast Nat.pos_iff_ne_zero.mp hrows
    simp only [_analyze_table_quality]
    have hdiv : ∀ cn : String × ℕ,
        pyDivOpt ((t.rows.length : ℚ) - cn.2) t.rows.length =
          some (((t.rows.length : ℚ) - cn.2) / t.rows.length) := by
      intro cn
      simp [pyDivOpt, hlen0]
    rw [List.map_congr_left (fun cn _ => hdiv cn)]
    have hne : t.cols.enum.map (fun jc => (jc.2, col_null_count t jc.1)) ≠ [] := by
      simp [List.map_eq_nil_iff, hcols]
    rw [meanOpt_map_some _ _ hne]
    simp only [List.map_map, List.length_map, List.enum_length, Option.map_some]
    rfl
  · intro h0
    have hz : (t.rows.length : ℚ) = 0 := by exact_mod_cast h0
    simp only [_analyze_table_quality]
    have hnone : ∀ cn : String × ℕ,
        pyDivOpt ((t.rows.length : ℚ) - cn.2) t.rows.length = none := by
      intro cn
      simp [pyDivOpt, hz]
    rw [List.map_congr_left (fun cn _ => hnone cn)]
    rw [meanOpt_map_none]
    rfl

theorem completeness_score_spec_witness :
    (_analyze_table_quality { cols := ["a", "b"], rows := [[some 1, none]] }).completeness_score =
      some (round2
        (((({ cols := ["a", "b"], rows := [[some 1, none]] } : QTable).cols.enum.map
            (fun jc => ((1 : ℚ) - col_null_count { cols := ["a", "b"], rows := [[some 1, none]] } jc.1) / 1)).sum /
          2) * 100)) ∧
    (_analyze_table_quality { cols := ["a", "b"], rows := [] }).completeness_score
      = none :=
  ⟨(completeness_score_spec { cols := ["a", "b"], rows := [[some 1, none]] }).1
      (by decide) (by decide),
   (completeness_score_spec { cols := ["a", "b"], rows := [] }).2 rfl⟩

/-- C6 counterexample: on a two-column table with zero rows the claim
requires completenessScore 0 plus an explicit "no data" flag; the code
computes NaN (or raises ZeroDivisionError) — the score is undefined, not
0, and the QualityReport carries no such flag. -/
theorem completeness_zero_rows_not_zero :
    (_analyze_table_quality { cols := ["id", "email"], rows := [] }).completeness_score
        = none ∧
    (_analyze_table_quality { cols := ["id", "email"], rows := [] }).completeness_score
        ≠ some 0 := by
  constructor <;> decide

theorem countP_bind_partition (cut : ℚ → Option (Fin 5)) :
    ∀ vs : List (Option ℚ),
      (∀ x : ℚ, some x ∈ vs → (cut x).isSome) →
      vs.countP (fun v => (v.bind cut).isSome) + vs.countP (fun v => v = none)
        = vs.length
  | [], _ => by simp
  | a :: tl, h => by
    have htl : ∀ x : ℚ, some x ∈ tl → (cut x).isSome :=
      fun x hx => h x (List.mem_cons_of_mem a hx)
    have ih := countP_bind_partition cut tl htl
    rcases a with _ | x
    · simp only [List.countP_cons, List.length_cons, Option.none_bind,
        Option.isSome_none]
      norm_num
      omega
    · have hx : (cut x).isSome := h x (by simp)
      simp only [List.countP_cons, List.length_cons, Option.some_bind, hx]
      simp
      omega

theorem binTotal_partition (cut : ℚ → Option (Fin 5)) (vs : List (Option ℚ))
    (h : ∀ x : ℚ, some x ∈ vs → (cut x).isSome) :
    binTotal cut vs + nullEntryCount vs = vs.length := by
  unfold binTotal binCount nullEntryCount
  rw [sum_countP_eq_countP_isSome (fun v => v.bind cut) vs]
  exact countP_bind_partition cut vs h

/-- C2 (amended): with the include_lowest cut of get_claims_analysis every
non-null value ≥ 0 — the value 0 and the whole closed first interval
[0, 1000] included — is assigned exactly one of the five bins, and the sum
of the per-bin counts plus the null count equals the input length whenever
no non-null value is negative; with the plain cut of
get_claims_payments_correlation the first interval is open at 0, so only
strictly positive values are assigned a bin (the value 0 is left
unbinned) and the partition identity holds when every non-null value is
strictly positive. -/
theorem binning_partition :
    (∀ v : ℚ, 0 ≤ v → ∃! i : Fin 5, cutIncludeLowest v = some i) ∧
    (∀ vs : List (Option ℚ), (∀ x : ℚ, some x ∈ vs → 0 ≤ x) →
      binTotal cutIncludeLowest vs + nullEntryCount vs = vs.length) ∧
    (∀ v : ℚ, 0 < v → ∃! i : Fin 5, cutPlain v = some i) ∧
    cutPlain 0 = none ∧
    (∀ vs : List (Option ℚ), (∀ x : ℚ, some x ∈ vs → 0 < x) →
      binTotal cutPlain vs + nullEntryCount vs = vs.length) := by
  refine ⟨?_, ?_, ?_, cutPlain_zero, ?_⟩
  · intro v hv
    obtain ⟨i, hi⟩ := Option.isSome_iff_exists.mp (cutIncludeLowest_isSome hv)
    exact ⟨i, hi, fun y hy => Option.some_injective _ (hy.symm.trans hi)⟩
  · intro vs hvs
    exact binTotal_partition _ vs (fun x hx => cutIncludeLowest_isSome (hvs x hx))
  · intro v hv
    obtain ⟨i, hi⟩ := Option.isSome_iff_exists.mp (cutPlain_isSome hv)
    exact ⟨i, hi, fun y hy => Option.some_injective _ (hy.symm.trans hi)⟩
  · intro vs hvs
    exact binTotal_partition _ vs (fun x hx => cutPlain_isSome (hvs x hx))

theorem binning_partition_witness :
    cutIncludeLowest 0 = some 0 ∧
    binTotal cutIncludeLowest [some 0, some 500, some 1500, none] +
        nullEntryCount [some 0, some 500, some 1500, none] = 4 ∧
    binTotal cutPlain [some 500, some 7000, none] +
        nullEntryCount [some 500, some 7000, none] = 3 :=
  ⟨by decide,
   binning_partition.2.1 [some 0, some 500, some 1500, none] (by
     intro x hx
     simp only [List.mem_cons, List.not_mem_nil, or_false,
       Option.some.injEq, reduceCtorEq] at hx
     rcases hx with rfl | rfl | rfl <;> norm_num),
   binning_partition.2.2.2.2 [some 500, some 7000, none] (by
     intro x hx
     simp only [List.mem_cons, List.not_mem_nil, or_false,
       Option.some.injEq, reduceCtorEq] at hx
     rcases hx with rfl | rfl <;> norm_num)⟩

/-- C2 counterexample: at the correlation call site (pd.cut without
include_lowest) the value 0 is assigned to no bin, so for the input
sequence [0] the per-bin counts sum to 0, there are no nulls, and
0 + 0 ≠ 1 = length — the claimed partition fails on the value 0. -/
theorem binning_zero_left_unbinned :
    cutPlain 0 = none ∧
    binTotal cutPlain [some 0] + nullEntryCount [some 0] = 0 ∧
    binTotal cutPlain [some 0] + nullEntryCount [some 0] ≠ [some (0 : ℚ)].length := by
  refine ⟨by decide, by decide, by decide⟩

/-- C9 (confirmed): the Pearson coefficient the time-series comparison
computes is symmetric: swapping the two aligned series keeps the centered
cross sum and swaps the two centered square sums, so the real coefficient
sxy/sqrt(sxx·syy) is identical for (x, y) and (y, x). -/
theorem pearson_correlation_symmetric (xs ys : List ℚ) :
    (pearsonRep xs ys).sxy = (pearsonRep ys xs).sxy ∧
    (pearsonRep xs ys).sxx * (pearsonRep xs ys).syy =
      (pearsonRep ys xs).sxx * (pearsonRep ys xs).syy ∧
    ((pearsonRep xs ys).sxy : ℝ) /
        Real.sqrt (((pearsonRep xs ys).sxx : ℝ) * ((pearsonRep xs ys).syy : ℝ)) =
      ((pearsonRep ys xs).sxy : ℝ) /
        Real.sqrt (((pearsonRep ys xs).sxx : ℝ) * ((pearsonRep ys xs).syy : ℝ)) := by
  refine ⟨centeredDot_comm xs ys, ?_, ?_⟩
  · simp only [pearsonRep]
    rw [mul_comm]
  · simp only [pearsonRep]
    rw [centeredDot_comm xs ys,
      mul_comm ((centeredDot xs xs : ℚ) : ℝ) ((centeredDot ys ys : ℚ) : ℝ)]

/-- C8 (confirmed): the insight derivation is a pure function over the
metrics mapping firing exactly the fixed threshold rules — loss ratio
> 80 high-risk / < 30 low-risk / otherwise moderate; claims-to-payments
ratio > 0.5 high-frequency, < 0.1 low-frequency; absolute count
correlation > 0.7 strong-correlation with wording chosen by the sign —
and the emitted list contains exactly the fired rules' messages; in the
concrete scenario of claims amount 90 against payments amount 100 the
computed loss_ratio is 90 and the high-risk rule fires. -/
theorem insight_rules_fire_exactly :
    (∀ (gs : InsightStats) (corr : Option InsightCorr),
      (generate_claims_payments_insights gs corr).length =
        (match gs.loss_ratio_pct with
          | some _ => 1
          | none => 0) +
        (if 1/2 < gs.claims_to_payments.getD 0 then 1
         else if gs.claims_to_payments.getD 0 < 1/10 then 1 else 0) +
        (match corr with
          | some c => if 7/10 < |c.count_correlation.getD 0| then 1 else 0
          | none => 0) ∧
      (∀ lr, gs.loss_ratio_pct = some lr →
        (80 < lr →
          high_risk_msg lr ∈ generate_claims_payments_insights gs corr) ∧
        (lr < 30 →
          low_risk_msg lr ∈ generate_claims_payments_insights gs corr) ∧
        (30 ≤ lr → lr ≤ 80 →
          moderate_risk_msg lr ∈ generate_claims_payments_insights gs corr)) ∧
      (1/2 < gs.claims_to_payments.getD 0 →
        high_freq_msg ∈ generate_claims_payments_insights gs corr) ∧
      (gs.claims_to_payments.getD 0 < 1/10 →
        low_freq_msg ∈ generate_claims_payments_insights gs corr) ∧
      (∀ c, corr = some c → 7/10 < |c.count_correlation.getD 0| →
        strong_corr_msg
            (if 0 < c.count_correlation.getD 0 then "fuerte" else "fuerte inversa")
            (c.count_correlation.getD 0) ∈
          generate_claims_payments_insights gs corr)) ∧
    (loss_ratio_stat 90 100 = some 90 ∧
      high_risk_msg 90 ∈ generate_claims_payments_insights
        { loss_ratio_pct := loss_ratio_stat 90 100
          claims_to_payments := some (9/10) } none) := by
  have hstat : loss_ratio_stat 90 100 = some 90 := by
    norm_num [loss_ratio_stat]
    norm_num [round2, roundHalfEven]
  constructor
  · intro gs corr
    refine ⟨?_, ?_, ?_, ?_, ?_⟩
    · unfold generate_claims_payments_insights
      rw [List.length_append, List.length_append]
      rcases gs.loss_ratio_pct with _ | lr <;> rcases corr with _ | c <;>
        dsimp only <;> split_ifs <;> rfl
    · intro lr hlr
      refine ⟨?_, ?_, ?_⟩
      · intro h1
        simp [generate_claims_payments_insights, hlr, h1]
      · intro h1
        have h2 : ¬ (80 : ℚ) < lr := by linarith
        simp [generate_claims_payments_insights, hlr, h1, h2]
      · intro h1 h2
        have h3 : ¬ (80 : ℚ) < lr := not_lt.mpr h2
        have h4 : ¬ lr < 30 := not_lt.mpr h1
        simp [generate_claims_payments_insights, hlr, h3, h4]
    · intro h1
      unfold generate_claims_payments_insights
      refine List.mem_append.mpr (Or.inl (List.mem_append.mpr (Or.inr ?_)))
      rw [if_pos h1]
      exact List.mem_singleton.mpr rfl
    · intro h1
      have h2 : ¬ (1 : ℚ)/2 < gs.claims_to_payments.getD 0 := by
        intro hcon
        linarith
      unfold generate_claims_payments_insights
      refine List.mem_append.mpr (Or.inl (List.mem_append.mpr (Or.inr ?_)))
      rw [if_neg h2, if_pos h1]
      exact List.mem_singleton.mpr rfl
    · intro c hc habs
      simp [generate_claims_payments_insights, hc, habs]
  · refine ⟨hstat, ?_⟩
    simp only [hstat]
    have h90 : (80 : ℚ) < 90 := by norm_num
    simp [generate_claims_payments_insights, h90]

theorem insight_rules_fire_exactly_witness :
    high_risk_msg 85 ∈ generate_claims_payments_insights
        { loss_ratio_pct := some 85, claims_to_payments := some (3/10) } none ∧
    low_freq_msg ∈ generate_claims_payments_insights
        { loss_ratio_pct := none, claims_to_payments := some (1/20) }
        (some { count_correlation := some (4/5) }) ∧
    strong_corr_msg "fuerte" (4/5) ∈ generate_claims_payments_insights
        { loss_ratio_pct := none, claims_to_payments := some (1/20) }
        (some { count_correlation := some (4/5) }) := by
  refine ⟨?_, ?_, ?_⟩
  · exact ((insight_rules_fire_exactly.1 _ none).2.1 85 rfl).1 (by norm_num)
  · exact (insight_rules_fire_exactly.1 _ _).2.2.2.1 (by norm_num)
  · have habs : (7 : ℚ)/10 < |(4 : ℚ)/5| := by
      rw [show |(4 : ℚ)/5| = 4/5 from abs_of_pos (by norm_num)]
      norm_num
    have h := (insight_rules_fire_exactly.1
      { loss_ratio_pct := none, claims_to_payments := some (1/20) }
      (some { count_correlation := some (4/5) })).2.2.2.2
      { count_correlation := some (4/5) } rfl (by simpa using habs)
    simpa using h

theorem value_counts_ne_nil {α : Type} [DecidableEq α] {vs : List α}
    (h : vs ≠ []) : value_counts vs ≠ [] := by
  simp [value_counts, List.map_eq_nil_iff, List.dedup_eq_nil, h]

/-- C1 (amended): sections guarded by a column check do recover by
skipping to an empty/zero sub-result — get_claims_analysis is total and
returns an empty section for each absent column — but partial data CAN
make an analysis function raise: get_agent_performance_across_systems
passes its join guard and then raises KeyError whenever any column
demanded by its unguarded groupby/agg is missing from the merged frame,
and get_claims_payments_correlation raises ValueError (idxmax of an empty
sequence) when both date columns are present but one frame contains no
non-null date. -/
theorem partial_data_handling :
    (∀ (today : ℤ) (f : ClaimsFrame),
      (f.hasMonto = false → (get_claims_analysis today f).amount_statistics = none) ∧
      (f.hasEstado = false →
        (get_claims_analysis today f).status_distribution = []) ∧
      (f.hasFecha = false → (get_claims_analysis today f).temporal_analysis = none) ∧
      (f.hasTipo = false → (get_claims_analysis today f).type_analysis = none)) ∧
    (∀ agents policies products : ColsFrame,
      "code" ∈ agents.cols → "agent_id" ∈ policies.cols →
      ¬ (∀ c ∈ agentGroupbyCols, c ∈ agent_merged_columns agents policies products) →
      (get_agent_performance_across_systems agents policies products).isOk = false) ∧
    (∀ (claims : ClaimsFrame) (pays : PaymentsFrame),
      claims.hasFecha = true → pays.hasFecha = true →
      (claims.rows.filterMap (fun r => r.fecha_reclamo) = [] ∨
        pays.rows.filterMap (fun r => r.fecha_pago) = []) →
      (get_claims_payments_correlation claims pays).isOk = false) := by
  refine ⟨?_, ?_, ?_⟩
  · intro today f
    refine ⟨?_, ?_, ?_, ?_⟩ <;> intro h <;> simp [get_claims_analysis, h]
  · intro agents policies products hcode haid hmiss
    have hall : (agentGroupbyCols.all
        (fun c => decide (c ∈ agent_merged_columns agents policies products))) = false := by
      rcases hb : agentGroupbyCols.all
          (fun c => decide (c ∈ agent_merged_columns agents policies products)) with _ | _
      · rfl
      · exfalso
        apply hmiss
        intro c hcmem
        have := List.all_eq_true.mp hb c hcmem
        simpa using this
    unfold get_agent_performance_across_systems
    rw [if_pos ⟨hcode, haid⟩]
    dsimp only
    rw [hall]
    rfl
  · intro claims pays hcf hpf hemp
    have hwe : ∃ e, cpc_weekday claims pays = .error e := by
      unfold cpc_weekday
      simp only [hcf, hpf, and_self, if_true, reduceIte]
      rcases hemp with hne | hne
      · refine ⟨"attempt to get argmax of an empty sequence", ?_⟩
        rw [hne]
        rfl
      · by_cases hcemp : claims.rows.filterMap (fun r => r.fecha_reclamo) = []
        · refine ⟨"attempt to get argmax of an empty sequence", ?_⟩
          rw [hcemp]
          rfl
        · have hcw : value_counts ((claims.rows.filterMap
              (fun r => r.fecha_reclamo)).map (fun d => weekdayName d.weekday)) ≠ [] :=
            value_counts_ne_nil (by simp [hcemp])
          obtain ⟨a, ha⟩ := idxmax_isOk_of_ne_nil hcw
          refine ⟨"attempt to get argmax of an empty sequence", ?_⟩
          rw [ha, hne]
          rfl
    obtain ⟨e, he⟩ := hwe
    unfold get_claims_payments_correlation
    rw [he]
    rfl

theorem partial_data_handling_witness :
    (get_claims_analysis 0
        { hasEstado := false, hasMonto := false, hasFecha := false,
          hasTipo := false, rows := [] }).amount_statistics = none ∧
    (get_agent_performance_across_systems
        { cols := ["code", "is_active", "last_name"] }
        { cols := ["agent_id", "policy_number", "premium", "sum_insured",
                   "product_id"] }
        { cols := ["code", "name"] }).isOk = false ∧
    (get_claims_payments_correlation
        { hasEstado := false, hasMonto := false, hasFecha := true,
          hasTipo := false, rows := [] }
        { hasMonto := false, hasFecha := true, rows := [] }).isOk = false :=
  ⟨(partial_data_handling.1 0 _).1 rfl,
   partial_data_handling.2.1 _ _ _ (by decide) (by decide) (by decide),
   partial_data_handling.2.2 _ _ rfl rfl (Or.inl rfl)⟩

/-- C1 counterexample: the claim says every public analysis function
recovers from an absent referenced column and partial data never raises.
With an agents table lacking first_name (and a policies table with no
column named code, so no code_agent column is created by suffixing), the
join guard of get_agent_performance_across_systems passes and the groupby
at line 136 raises KeyError; likewise get_claims_payments_correlation
raises ValueError on frames whose date columns are present but empty. -/
theorem partial_data_raises :
    (get_agent_performance_across_systems
        { cols := ["code", "is_active", "last_name"] }
        { cols := ["agent_id", "policy_number", "premium", "sum_insured",
                   "product_id"] }
        { cols := ["code", "name"] })
      = .error ("KeyError: groupby/agg column missing from merged agent data") ∧
    (get_claims_payments_correlation
        { hasEstado := false, hasMonto := false, hasFecha := true,
          hasTipo := false, rows := [] }
        { hasMonto := false, hasFecha := true, rows := [] })
      = .error ("attempt to get argmax of an empty sequence") := by
  constructor <;> rfl

theorem monthlySeries_window_sorted (ms : List ℤ) :
    (tail12 (monthlySeries ms)).length ≤ 12 ∧
    ((tail12 (monthlySeries ms)).map (fun e => e.1)).Sorted (· < ·) := by
  refine ⟨tail12_length_le _, ?_⟩
  have h1 : (tail12 (monthlySeries ms)).map (fun e => e.1)
      = tail12 ((monthlySeries ms).map (fun e => e.1)) := by
    unfold tail12
    rw [List.map_drop, List.length_map]
  rw [h1]
  have h2 : (monthlySeries ms).map (fun e => e.1) = sortedUnion ms := by
    unfold monthlySeries
    rw [List.map_map]
    exact List.map_id' _
  rw [h2]
  exact tail12_sorted (sortedUnion_sorted ms)

/-- C4 (amended): the "analyze separately" fallback exists only in
get_claims_vs_policies_analysis: when the policies frame lacks id, or the
claims frame lacks both policy_id and policy_number, the join is not
attempted and the function returns — without raising — the separate
analysis of the product-joined policies frame and the claims frame, whose
note records that no direct JOIN was possible and whose summary counts
each table independently, with chronological per-table monthly series of
at most 12 ascending periods; get_customer_policy_profile, by contrast,
returns a structured error object when its first join key is missing —
an error result, not an independent-summaries fallback. -/
theorem join_unavailable_fallback :
    (∀ (policies : PoliciesFrame) (claims : CvPClaimsFrame)
        (products : ProductsFrame),
      ("id" ∉ policies.cols ∨
        ("policy_id" ∉ claims.cols ∧ "policy_number" ∉ claims.cols)) →
      get_claims_vs_policies_analysis policies claims products =
        .ok (.separate (analyze_separate_claims_policies
          (policiesWithProducts policies products) claims))) ∧
    (∀ (policies : PoliciesFrame) (claims : CvPClaimsFrame),
      (analyze_separate_claims_policies policies claims).note =
        "Analysis performed separately - no direct JOIN possible" ∧
      (analyze_separate_claims_policies policies claims).total_policies =
        policies.rows.length ∧
      (analyze_separate_claims_policies policies claims).total_claims =
        claims.rows.length ∧
      (∀ l, (analyze_separate_claims_policies policies claims).monthly_policies
          = some l →
        l.length ≤ 12 ∧ (l.map (fun e => e.1)).Sorted (· < ·)) ∧
      (∀ l, (analyze_separate_claims_policies policies claims).monthly_claims
          = some l →
        l.length ≤ 12 ∧ (l.map (fun e => e.1)).Sorted (· < ·))) ∧
    (∀ users clients policies : ColsFrame,
      "id" ∉ users.cols →
      get_customer_policy_profile users clients policies =
        .errObj ("Cannot join users and clients - missing key columns")) := by
  refine ⟨?_, ?_, ?_⟩
  · intro policies claims products hkeys
    unfold get_claims_vs_policies_analysis
    rcases hkeys with hid | ⟨hpid, hpnum⟩
    · rw [if_neg hid]
    · by_cases hid : "id" ∈ policies.cols
      · rw [if_pos hid, if_neg hpid, if_neg hpnum]
      · rw [if_neg hid]
  · intro policies claims
    refine ⟨rfl, rfl, rfl, ?_, ?_⟩
    · intro l hl
      unfold analyze_separate_claims_policies at hl
      by_cases hc : "created_at" ∈ policies.cols
      · simp only [hc, if_pos] at hl
        obtain rfl : l = tail12 (monthlySeries
            (policies.rows.filterMap (fun r => r.created_at))) := by
          simpa using hl.symm
        exact monthlySeries_window_sorted _
      · simp [hc] at hl
    · intro l hl
      unfold analyze_separate_claims_policies at hl
      by_cases hc : "fecha_reclamo" ∈ claims.cols
      · simp only [hc, if_pos] at hl
        obtain rfl : l = tail12 (monthlySeries
            (claims.rows.filterMap (fun r => r.fecha_reclamo))) := by
          simpa using hl.symm
        exact monthlySeries_window_sorted _
      · simp [hc] at hl
  · intro users clients policies hid
    unfold get_customer_policy_profile
    rw [if_neg (by simp [hid])]

theorem join_unavailable_fallback_witness :
    get_claims_vs_policies_analysis
        { cols := ["policy_number", "premium"], rows := [] }
        { cols := ["estado"], rows := [] } { cols := [], rows := [] } =
      .ok (.separate (analyze_separate_claims_policies
        (policiesWithProducts { cols := ["policy_number", "premium"], rows := [] }
          { cols := [], rows := [] })
        { cols := ["estado"], rows := [] })) ∧
    (analyze_separate_claims_policies
        { cols := ["policy_number", "premium"], rows := [] }
        { cols := ["estado"], rows := [] }).note =
      "Analysis performed separately - no direct JOIN possible" ∧
    get_customer_policy_profile { cols := ["user_id", "email"] }
        { cols := ["user_id"] } { cols := ["customer_id"] } =
      .errObj ("Cannot join users and clients - missing key columns") :=
  ⟨join_unavailable_fallback.1 _ _ _ (Or.inl (by decide)),
   (join_unavailable_fallback.2.1 _ _).1,
   join_unavailable_fallback.2.2 _ _ _ (by decide)⟩

/-- C4 counterexample: the claim requires every caller to fall back to
independent single-table summaries with an explanatory note when a join
key is absent; get_customer_policy_profile with a users table lacking the
id column instead returns a structured error object containing no
summaries, no temporal series and no note. -/
theorem missing_key_no_fallback :
    get_customer_policy_profile { cols := ["user_id", "email"] }
        { cols := ["user_id", "client_code"] }
        { cols := ["customer_id", "policy_number"] }
      = .errObj ("Cannot join users and clients - missing key columns") := by
  rfl

theorem div_sqrt_self_eq_one {a : ℝ} (ha : 0 < a) : a / Real.sqrt (a * a) = 1 := by
  rw [Real.sqrt_mul_self ha.le]
  exact div_self ha.ne'

theorem div_sqrt_ne_one {a P : ℝ} (hP : 0 < P) (h : a^2 ≠ P) :
    a / Real.sqrt P ≠ 1 := by
  intro hcon
  have hs : Real.sqrt P ≠ 0 := (Real.sqrt_pos.mpr hP).ne'
  have ha : a = Real.sqrt P := (div_eq_one_iff_eq hs).mp hcon
  apply h
  rw [ha, sq, Real.mul_self_sqrt hP.le]

/-- C5 (amended): the emitted monthly_data block is the most recent
at-most-12 months of the aligned month index in chronological order —
at most 12 entries, strictly increasing periods, and every month of the
full index that is not emitted is strictly older than every emitted
month — but the Pearson correlation the function reports is computed over
the FULL aligned zero-filled per-month series, not over that 12-month
window: correlations is present exactly when the full index has more than
one month, and count_correlation is then the representation of the
coefficient over the full count series. -/
theorem correlation_window_behavior (claims : ClaimsFrame) (pays : PaymentsFrame)
    (r : CPCResult) (mc : MonthlyComparison)
    (hok : get_claims_payments_correlation claims pays = .ok r)
    (hmc : r.monthly_comparison = some mc) :
    mc.monthly_data.length ≤ 12 ∧
    (mc.monthly_data.map (fun e => e.period)).Sorted (· < ·) ∧
    (∀ m ∈ cpc_month_index claims pays,
      m ∉ mc.monthly_data.map (fun e => e.period) →
      ∀ m2 ∈ mc.monthly_data.map (fun e => e.period), m < m2) ∧
    (mc.correlations.isSome ↔ 1 < (cpc_month_index claims pays).length) ∧
    (∀ cs, mc.correlations = some cs →
      cs.count_correlation =
        pearsonRep
          ((cpc_month_index claims pays).map
            (fun m => ((monthsOfClaims claims).count m : ℚ)))
          ((cpc_month_index claims pays).map
            (fun m => ((monthsOfPays pays).count m : ℚ)))) := by
  have hr : r.monthly_comparison = cpc_monthly claims pays := by
    unfold get_claims_payments_correlation at hok
    rcases hw : cpc_weekday claims pays with e | w <;> rw [hw] at hok
    · cases hok
    · rcases har : cpc_amount_range claims pays with e | ar <;> rw [har] at hok
      · cases hok
      · cases hok
        rfl
  rw [hr] at hmc
  unfold cpc_monthly at hmc
  by_cases hcond : ((claims.hasFecha : Prop) ∧ (pays.hasFecha : Prop))
  case neg =>
    rw [if_neg hcond] at hmc
    cases hmc
  rw [if_pos hcond] at hmc
  injection hmc with hmc
  subst hmc
  have hsorted : List.Sorted (· < ·) (cpc_month_index claims pays) := by
    unfold cpc_month_index
    exact sortedUnion_sorted _
  have hperiods :
      ((tail12 (cpc_month_index claims pays)).map (fun m => (⟨m,
          (monthsOfClaims claims).count m, (monthsOfPays pays).count m,
          round2 (cpc_claims_amount claims m), round2 (cpc_payment_amount pays m),
          monthly_ctp_metric ((monthsOfClaims claims).count m)
            ((monthsOfPays pays).count m)⟩ : MonthlyEntry))).map (fun e => e.period)
        = tail12 (cpc_month_index claims pays) := by
    rw [List.map_map]
    exact List.map_id' _
  refine ⟨?_, ?_, ?_, ?_, ?_⟩
  · simp only [List.length_map]
    exact tail12_length_le _
  · simp only
    rw [hperiods]
    exact tail12_sorted hsorted
  · intro m hm hnot m2 hm2
    simp only at hnot hm2
    rw [hperiods] at hnot hm2
    have hmem : m ∈ (cpc_month_index claims pays).take
        ((cpc_month_index claims pays).length - 12) := by
      have hsplit := List.take_append_drop
        ((cpc_month_index claims pays).length - 12) (cpc_month_index claims pays)
      have : m ∈ (cpc_month_index claims pays).take
            ((cpc_month_index claims pays).length - 12) ++
          (cpc_month_index claims pays).drop
            ((cpc_month_index claims pays).length - 12) := by
        rw [hsplit]
        exact hm
      rcases List.mem_append.mp this with h | h
      · exact h
      · exact absurd h hnot
    exact tail12_most_recent hsorted m hmem m2 hm2
  · simp only
    split_ifs with hlen
    · simpa using hlen
    · simpa using hlen
  · intro cs hcs
    simp only at hcs
    by_cases hlen : 1 < (cpc_month_index claims pays).length
    · rw [if_pos hlen] at hcs
      injection hcs with hcs
      subst hcs
      rfl
    · rw [if_neg hlen] at hcs
      cases hcs

theorem correlation_window_behavior_witness :
    cexWMonthly.monthly_data.length ≤ 12 ∧
    (cexWMonthly.monthly_data.map (fun e => e.period)).Sorted (· < ·) ∧
    (∀ m ∈ cpc_month_index cexWClaims cexWPays,
      m ∉ cexWMonthly.monthly_data.map (fun e => e.period) →
      ∀ m2 ∈ cexWMonthly.monthly_data.map (fun e => e.period), m < m2) ∧
    (cexWMonthly.correlations.isSome ↔
      1 < (cpc_month_index cexWClaims cexWPays).length) ∧
    (∀ cs, cexWMonthly.correlations = some cs →
      cs.count_correlation =
        pearsonRep
          ((cpc_month_index cexWClaims cexWPays).map
            (fun m => ((monthsOfClaims cexWClaims).count m : ℚ)))
          ((cpc_month_index cexWClaims cexWPays).map
            (fun m => ((monthsOfPays cexWPays).count m : ℚ)))) :=
  correlation_window_behavior cexWClaims cexWPays cexWResult cexWMonthly rfl rfl

/-- C5 counterexample: on thirteen months of data whose first month is an
outlier (5 claims, 1 payment; months 1-12 perfectly matched), the emitted
monthly_data is the 12-month window (months 1-12, counts all (1,1) up to
(2,2)) whose claim and payment count series are exactly proportional —
windowed Pearson coefficient 1 — while the correlation the function
reports is computed over all thirteen months and its coefficient
8/13 / sqrt(196/13 · 12/13) ≈ 0.165 is not 1: the reported coefficient is
NOT the coefficient of the emitted 12-period windowed series, refuting
the claim as stated. -/
theorem reported_correlation_not_windowed :
    (cexMonthly.map (fun mc => mc.monthly_data.map (fun e =>
        (e.claims_count, e.payments_count))))
      = some [(1, 1), (1, 1), (1, 1), (1, 1), (1, 1), (1, 1), (1, 1), (1, 1),
              (1, 1), (1, 1), (1, 1), (2, 2)] ∧
    cexWindowX = ([1, 1, 1, 1, 1, 1, 1, 1, 1, 1, 1, 2] :
      List ℕ).map (fun n => (n : ℚ)) ∧
    cexWindowY = ([1, 1, 1, 1, 1, 1, 1, 1, 1, 1, 1, 2] :
      List ℕ).map (fun n => (n : ℚ)) ∧
    ((cpc_month_index cexClaims cexPays).map
        (fun m => ((monthsOfClaims cexClaims).count m : ℚ))) = cexFullX ∧
    ((cpc_month_index cexClaims cexPays).map
        (fun m => ((monthsOfPays cexPays).count m : ℚ))) = cexFullY ∧
    (cexMonthly.bind (fun mc => mc.correlations)).map (fun cs => cs.count_correlation)
      = some (pearsonRep cexFullX cexFullY) ∧
    ((pearsonRep cexFullX cexFullY).sxy : ℝ) /
        Real.sqrt (((pearsonRep cexFullX cexFullY).sxx : ℝ) *
          ((pearsonRep cexFullX cexFullY).syy : ℝ)) ≠
      ((pearsonRep cexWindowX cexWindowY).sxy : ℝ) /
        Real.sqrt (((pearsonRep cexWindowX cexWindowY).sxx : ℝ) *
          ((pearsonRep cexWindowX cexWindowY).syy : ℝ)) := by
  have hx : ((cpc_month_index cexClaims cexPays).map
      (fun m => ((monthsOfClaims cexClaims).count m : ℚ))) = cexFullX := by decide
  have hy : ((cpc_month_index cexClaims cexPays).map
      (fun m => ((monthsOfPays cexPays).count m : ℚ))) = cexFullY := by decide
  have hrep : (cexMonthly.bind (fun mc => mc.correlations)).map
      (fun cs => cs.count_correlation)
      = some (pearsonRep
          ((cpc_month_index cexClaims cexPays).map
            (fun m => ((monthsOfClaims cexClaims).count m : ℚ)))
          ((cpc_month_index cexClaims cexPays).map
            (fun m => ((monthsOfPays cexPays).count m : ℚ)))) := rfl
  have hfull : pearsonRep cexFullX cexFullY =
      { sxy := 8/13, sxx := 196/13, syy := 12/13 } := by
    norm_num [pearsonRep, centeredDot, listMean, cexFullX, cexFullY]
  have hwin : pearsonRep cexWindowX cexWindowY =
      { sxy := 11/12, sxx := 11/12, syy := 11/12 } := by
    norm_num [pearsonRep, centeredDot, listMean, cexWindowX, cexWindowY]
  refine ⟨by decide, by decide, by decide, hx, hy, ?_, ?_⟩
  · rw [hx, hy] at hrep
    exact hrep
  · rw [hfull, hwin]
    simp only
    have hone : ((11/12 : ℚ) : ℝ) /
        Real.sqrt (((11/12 : ℚ) : ℝ) * ((11/12 : ℚ) : ℝ)) = 1 :=
      div_sqrt_self_eq_one (by norm_num)
    rw [hone]
    apply div_sqrt_ne_one
    · norm_num
    · push_cast
      norm_num
